import Mathlib

/-!
Shallow embedding of the "Minor Dai" mining game (src/src/types.ts and the
constants module).  JavaScript numbers are modelled as `ℚ` for pixel-space
quantities and as `ℤ` for tile indices, health, durability and counters.
`Math.random()` calls are modelled by explicit streams `ℕ → ℚ` of draws
(each draw is assumed to lie in `[0, 1)` where a theorem needs it).
`Math.hypot a b < c` comparisons (with `c ≥ 0` in every call site) are
translated to the equivalent squared form `a^2 + b^2 < c^2`.
-/

namespace MinorDai

/-- `TileType` enum from types.ts. -/
inductive TileType where
  | AIR | DIRT | STONE | GOLD | SHARD | DIAMOND | GRASS
deriving DecidableEq, Repr

/-- `GameStatus` enum from types.ts. -/
inductive GameStatus where
  | MENU | PLAYING | WON | LOST
deriving DecidableEq, Repr

/-- Entity kind union `'PLAYER' | 'ZOMBIE' | 'CREEPER'`. -/
inductive EntityKind where
  | PLAYER | ZOMBIE | CREEPER
deriving DecidableEq, Repr

/-- `Vector2` interface. -/
@[ext] structure Vec2 where
  x : ℚ
  y : ℚ
deriving DecidableEq, Repr

/-- `Tile` interface. -/
@[ext] structure Tile where
  type : TileType
  durability : ℤ
  maxDurability : ℤ
deriving DecidableEq, Repr

/-- `Entity` interface.  The optional cooldown fields are modelled as `ℤ`
with `undefined ≡ 0`, which matches every guard in the source
(`(x || 0) > 0`, `!x || x === 0`). -/
@[ext] structure Entity where
  id : String
  pos : Vec2
  targetPos : Vec2
  kind : EntityKind
  health : ℤ
  maxHealth : ℤ
  direction : ℤ
  isAttacking : Bool
  attackCooldown : ℤ
  damageCooldown : ℤ
deriving DecidableEq, Repr

/-- `Particle` interface. -/
@[ext] structure Particle where
  pos : Vec2
  vel : Vec2
  life : ℤ
  color : String
  text : Option String
deriving DecidableEq, Repr

/-- The tile grid `Tile[][]`, indexed as `grid y x` like `grid[y][x]`. -/
def Grid : Type := ℤ → ℤ → Tile

/-- `GameState` interface. -/
structure GameState where
  status : GameStatus
  player : Entity
  enemies : List Entity
  grid : Grid
  shardsCollected : ℤ
  goldCollected : ℤ
  diamondsCollected : ℤ
  camera : Vec2
  selectedTile : Option (ℤ × ℤ)
  particles : List Particle
  screenShake : ℚ

/-- Sampled movement-key state (KeyA/ArrowLeft etc. collapsed per direction). -/
structure Input where
  left : Bool
  right : Bool
  up : Bool
  down : Bool
deriving DecidableEq, Repr

-- Constants from the constants module and the top of the component file.

def GRID_WIDTH : ℤ := 40
def GRID_HEIGHT : ℤ := 60
def TILE_SIZE : ℚ := 40
def VIEWPORT_WIDTH : ℚ := 800
def VIEWPORT_HEIGHT : ℚ := 600
def INITIAL_PLAYER_HEALTH : ℤ := 200
def ENEMY_SPAWN_COUNT : ℕ := 12
def SHARD_GOAL : ℤ := 10
def GOLD_COUNT : ℕ := 5
def DIAMOND_COUNT : ℕ := 3
def ATTACK_COOLDOWN : ℤ := 20
def SWORD_DAMAGE : ℤ := 34
def CLICK_DAMAGE : ℤ := 34
def ENEMY_DAMAGE : ℤ := 34
def DAMAGE_COOLDOWN : ℤ := 60

/-- `TILE_DURABILITY` record. -/
def TILE_DURABILITY : TileType → ℤ
  | .DIRT => 5
  | .GRASS => 5
  | .STONE => 15
  | .GOLD => 10
  | .SHARD => 12
  | .DIAMOND => 20
  | .AIR => 0

/-- `COLORS` record restricted to tile types. -/
def COLORS : TileType → String
  | .DIRT => "#8b4513"
  | .GRASS => "#228b22"
  | .STONE => "#808080"
  | .GOLD => "#ffd700"
  | .SHARD => "#9370db"
  | .DIAMOND => "#00ffff"
  | .AIR => "transparent"

/-- Squared Euclidean distance; stands for `Math.hypot` in comparisons
against a nonnegative bound. -/
def distSq (a b : Vec2) : ℚ := (a.x - b.x) ^ 2 + (a.y - b.y) ^ 2

/-- The integer range `[a, b]` of a JS `for (i = a; i <= b; i++)` loop. -/
def rangeClosed (a b : ℤ) : List ℤ :=
  (List.range (b + 1 - a).toNat).map (fun i : ℕ => a + (i : ℤ))

/-- In-place mutation of one grid cell. -/
def setTile (g : Grid) (ty tx : ℤ) (t : Tile) : Grid :=
  fun y x => if y = ty ∧ x = tx then t else g y x

/-- The tile `{ type, durability: TILE_DURABILITY[type] || 0, maxDurability: … }`. -/
def mkTile (t : TileType) : Tile :=
  ⟨t, TILE_DURABILITY t, TILE_DURABILITY t⟩

/-- `{ type: AIR, durability: 0, maxDurability: 0 }` written by cave carving. -/
def airTile : Tile := ⟨.AIR, 0, 0⟩

/-- `checkCollision` from `update`: an axis-aligned `TILE_SIZE` square body
at pixel `(px, py)` with an inward margin of 8; any covered tile that is
out of bounds, or whose type is not AIR, collides. -/
def checkCollision (g : Grid) (px py : ℚ) : Bool :=
  let margin : ℚ := 8
  let left := ⌊(px + margin) / TILE_SIZE⌋
  let right := ⌊(px + TILE_SIZE - margin) / TILE_SIZE⌋
  let top := ⌊(py + margin) / TILE_SIZE⌋
  let bottom := ⌊(py + TILE_SIZE - margin) / TILE_SIZE⌋
  (rangeClosed top bottom).any fun y =>
    (rangeClosed left right).any fun x =>
      decide (y < 0 ∨ GRID_HEIGHT ≤ y ∨ x < 0 ∨ GRID_WIDTH ≤ x) ||
      decide ((g y x).type ≠ TileType.AIR)

/-- Axis-separated movement used for the player and (through the shared
`pos` reference of the spread copy) for enemies: the horizontal move is
collision-checked first, and the vertical check uses the updated `x`. -/
def moveBody (g : Grid) (pos : Vec2) (dx dy : ℚ) : Vec2 :=
  let x1 := if checkCollision g (pos.x + dx) pos.y then pos.x else pos.x + dx
  let y1 := if checkCollision g x1 (pos.y + dy) then pos.y else pos.y + dy
  ⟨x1, y1⟩

/-! ## World generation (`initGame`) -/

/-- Layered type of a row: row 5 GRASS, rows 6–9 DIRT, rows ≥ 10 STONE,
everything else (the sky rows 0–4) AIR. -/
def layeredType (y : ℤ) : TileType :=
  if y = 5 then .GRASS
  else if 5 < y ∧ y < 10 then .DIRT
  else if 10 ≤ y then .STONE
  else .AIR

/-- The grid after the layered fill loop of `initGame`. -/
def layeredFill : Grid := fun y _ => mkTile (layeredType y)

/-- `Math.floor(Math.random() * 40) + 20`: the number of steps of a cave walk. -/
def walkLength (r : ℚ) : ℤ := ⌊r * 40⌋ + 20

/-- `Math.floor(Math.random() * 2) + 2`: the carve radius of one walk step. -/
def walkRadius (r : ℚ) : ℤ := ⌊r * 2⌋ + 2

/-- Body of the carving double loop for offset `d = (dx, dy)`: carve
`(cx+dx, cy+dy)` to AIR when it is inside the grid, at row ≥ 10, and within
Euclidean distance `radius` of the walk center (`Math.hypot(dx,dy) <= radius`,
squared; the loop only produces offsets with `|dx|,|dy| ≤ radius`, so
`radius ≥ 0` whenever this body runs). -/
def carveCell (cx cy radius : ℤ) (g : Grid) (d : ℤ × ℤ) : Grid :=
  let nx := cx + d.1
  let ny := cy + d.2
  if 0 ≤ nx ∧ nx < GRID_WIDTH ∧ 10 ≤ ny ∧ ny < GRID_HEIGHT ∧
      d.1 ^ 2 + d.2 ^ 2 ≤ radius ^ 2 then
    setTile g ny nx airTile
  else g

/-- One carved disc: the `dy`/`dx` double loop over `[-radius, radius]`. -/
def carveDisc (g : Grid) (cx cy radius : ℤ) : Grid :=
  (rangeClosed (-radius) radius).foldl
    (fun g1 dy =>
      (rangeClosed (-radius) radius).foldl
        (fun g2 dx => carveCell cx cy radius g2 (dx, dy)) g1)
    g

/-- The inner `for j` loop of one cave walk: carve a disc of random radius,
drift the center by random deltas, stop early on leaving
`[0, GRID_WIDTH) × [10, GRID_HEIGHT)`.  Returns the grid and the next index
into the random stream. -/
def carveSteps (rnd : ℕ → ℚ) : ℕ → Grid → ℤ → ℤ → ℕ → Grid × ℕ
  | 0, g, _, _, k => (g, k)
  | j + 1, g, cx, cy, k =>
    let radius := walkRadius (rnd k)
    let g1 := carveDisc g cx cy radius
    let cx1 := cx + ⌊rnd (k + 1) * 5⌋ - 2
    let cy1 := cy + ⌊rnd (k + 2) * 3⌋ - 1
    if cx1 < 0 ∨ GRID_WIDTH ≤ cx1 ∨ cy1 < 10 ∨ GRID_HEIGHT ≤ cy1 then (g1, k + 3)
    else carveSteps rnd j g1 cx1 cy1 (k + 3)

/-- One cave walk (`for i` body): random start column, random start row
≥ 15, random length. -/
def carveWalk (rnd : ℕ → ℚ) (gk : Grid × ℕ) : Grid × ℕ :=
  let cx := ⌊rnd gk.2 * 40⌋
  let cy := ⌊rnd (gk.2 + 1) * 45⌋ + 15
  let len := walkLength (rnd (gk.2 + 2))
  carveSteps rnd len.toNat gk.1 cx cy (gk.2 + 3)

/-- All 15 cave walks. -/
def carveAll (rnd : ℕ → ℚ) (g : Grid) : Grid × ℕ :=
  (List.range 15).foldl (fun gk _ => carveWalk rnd gk) (g, 0)

/-- `placeResource`: rejection sampling of `cnt` cells at rows ≥ `minY`,
replacing STONE or DIRT with the resource tile.  The source `while` loop is
unbounded; `fuel` bounds the number of attempts in the model (exhausting it
returns the grid as is). -/
def placeResource (rnd : ℕ → ℚ) (t : TileType) (minY : ℤ) :
    ℕ → ℕ → ℕ → Grid → Grid × ℕ
  | 0, _, k, g => (g, k)
  | _ + 1, 0, k, g => (g, k)
  | fuel + 1, cnt + 1, k, g =>
    let rx := ⌊rnd k * 40⌋
    let ry := ⌊rnd (k + 1) * ((GRID_HEIGHT : ℚ) - (minY : ℚ))⌋ + minY
    if (g ry rx).type = TileType.STONE ∨ (g ry rx).type = TileType.DIRT then
      placeResource rnd t minY fuel cnt (k + 2) (setTile g ry rx (mkTile t))
    else
      placeResource rnd t minY fuel (cnt + 1) (k + 2) g

/-- The generated grid of `initGame`: layered fill, cave carving, then the
three resource-placement passes (SHARD 15 at rows ≥ 12, GOLD 5 at rows
≥ 20, DIAMOND 3 at rows ≥ 40). -/
def initGrid (rnd : ℕ → ℚ) (fuel : ℕ) : Grid :=
  let gk1 := carveAll rnd layeredFill
  let gk2 := placeResource rnd .SHARD 12 fuel 15 gk1.2 gk1.1
  let gk3 := placeResource rnd .GOLD 20 fuel GOLD_COUNT gk2.2 gk2.1
  (placeResource rnd .DIAMOND 40 fuel DIAMOND_COUNT gk3.2 gk3.1).1

/-! ## Combat and mining (`handleAttack`, `handleCanvasClick`) -/

/-- A burst of 5 red hit particles at a center point, with random
velocities drawn at stream indices `k, k+1, …`. -/
def hitParticles (rnd : ℕ → ℚ) (k : ℕ) (cx cy : ℚ) : List Particle :=
  (List.range 5).map fun i =>
    { pos := ⟨cx, cy⟩
      vel := ⟨(rnd (k + 2 * i) - 1 / 2) * 4, (rnd (k + 2 * i + 1) - 1 / 2) * 4⟩
      life := 20
      color := "#ff0000"
      text := none }

/-- Accumulator for the enemy-damaging `map` loops of `handleAttack` and
the click handler: enemies rebuilt so far, particles, random-stream index. -/
structure HitAcc where
  enemies : List Entity
  particles : List Particle
  k : ℕ

/-- Body of the `handleAttack` enemy loop: enemies within
`TILE_SIZE * 1.5` of the player take `SWORD_DAMAGE` and emit hit particles. -/
def attackStep (rnd : ℕ → ℚ) (ppos : Vec2) (acc : HitAcc) (e : Entity) : HitAcc :=
  if distSq ppos e.pos < (TILE_SIZE * (3 / 2)) ^ 2 then
    { enemies := acc.enemies ++ [{ e with health := e.health - SWORD_DAMAGE }]
      particles := acc.particles ++
        hitParticles rnd acc.k (e.pos.x + TILE_SIZE / 2) (e.pos.y + TILE_SIZE / 2)
      k := acc.k + 10 }
  else { acc with enemies := acc.enemies ++ [e] }

/-- `handleAttack` (space bar melee): no-op unless PLAYING with attack
cooldown 0; otherwise set the attacking flag, reset the cooldown, damage
every enemy in range and drop enemies whose health is no longer positive. -/
def handleAttack (rnd : ℕ → ℚ) (s : GameState) : GameState :=
  if s.status ≠ GameStatus.PLAYING ∨ 0 < s.player.attackCooldown then s
  else
    let p := { s.player with isAttacking := true, attackCooldown := ATTACK_COOLDOWN }
    let acc := s.enemies.foldl (attackStep rnd s.player.pos) ⟨[], s.particles, 0⟩
    { s with player := p
             enemies := acc.enemies.filter fun e => 0 < e.health
             particles := acc.particles }

/-- The click-hit test of `handleCanvasClick`: pointer within
`TILE_SIZE * 0.8` of the enemy center. -/
def clickHit (mouse : Vec2) (e : Entity) : Bool :=
  decide (distSq mouse ⟨e.pos.x + TILE_SIZE / 2, e.pos.y + TILE_SIZE / 2⟩ <
    (TILE_SIZE * (4 / 5)) ^ 2)

/-- Body of the click-attack enemy loop: hit enemies take `CLICK_DAMAGE`
and emit hit particles. -/
def clickStep (rnd : ℕ → ℚ) (mouse : Vec2) (acc : HitAcc) (e : Entity) : HitAcc :=
  if clickHit mouse e then
    { enemies := acc.enemies ++ [{ e with health := e.health - CLICK_DAMAGE }]
      particles := acc.particles ++
        hitParticles rnd acc.k (e.pos.x + TILE_SIZE / 2) (e.pos.y + TILE_SIZE / 2)
      k := acc.k + 10 }
  else { acc with enemies := acc.enemies ++ [e] }

/-- The first `setGameState` of `handleCanvasClick`: damage clicked
enemies, drop the dead, and if the enemy count decreased, heal the player
by 20 capped at `INITIAL_PLAYER_HEALTH`. -/
def clickAttackPhase (rnd : ℕ → ℚ) (mouse : Vec2) (s : GameState) : GameState :=
  let acc := s.enemies.foldl (clickStep rnd mouse) ⟨[], s.particles, 0⟩
  let enemies1 := acc.enemies.filter fun e => 0 < e.health
  let player1 :=
    if enemies1.length < s.enemies.length then
      { s.player with health := min INITIAL_PLAYER_HEALTH (s.player.health + 20) }
    else s.player
  { s with enemies := enemies1, particles := acc.particles, player := player1 }

/-- `spawnMiningParticles`: 3 particles at the tile center, colored by the
tile type. -/
def spawnMiningParticles (rnd : ℕ → ℚ) (x y : ℤ) (color : String) : List Particle :=
  (List.range 3).map fun i =>
    { pos := ⟨((x : ℚ) + 1 / 2) * TILE_SIZE, ((y : ℚ) + 1 / 2) * TILE_SIZE⟩
      vel := ⟨(rnd (2 * i) - 1 / 2) * 6, (rnd (2 * i + 1) - 1 / 2) * 6⟩
      life := 30
      color := color
      text := none }

/-- The floating `+1 <RESOURCE>` label particle. -/
def resourceLabel (tx ty : ℤ) (color text : String) : Particle :=
  { pos := ⟨((tx : ℚ) + 1 / 2) * TILE_SIZE, (ty : ℚ) * TILE_SIZE⟩
    vel := ⟨0, -1⟩
    life := 40
    color := color
    text := some text }

/-- The mining mutation of `handleCanvasClick` once the target tile
`(tx, ty)` has been selected: a non-AIR tile loses 8 durability and emits
mining particles; at durability ≤ 0 the screen shakes, the matching
resource counter increments (with its label particle and, for shards, the
win check), and the tile's `type` is set to AIR — its durability (now
≤ 0) and maxDurability fields are left as they are. -/
def mineTileAt (rnd : ℕ → ℚ) (tx ty : ℤ) (s : GameState) : GameState :=
  let tile := s.grid ty tx
  if tile.type ≠ TileType.AIR then
    let d := tile.durability - 8
    let parts := s.particles ++ spawnMiningParticles rnd tx ty (COLORS tile.type)
    if d ≤ 0 then
      let s1 : GameState :=
        if tile.type = TileType.SHARD then
          { s with shardsCollected := s.shardsCollected + 1
                   particles := parts ++
                     [resourceLabel tx ty (COLORS .SHARD) "+1 SHARD"]
                   screenShake := 5
                   status := if SHARD_GOAL ≤ s.shardsCollected + 1 then
                       GameStatus.WON
                     else s.status }
        else if tile.type = TileType.GOLD then
          { s with goldCollected := s.goldCollected + 1
                   particles := parts ++
                     [resourceLabel tx ty (COLORS .GOLD) "+1 GOLD"]
                   screenShake := 5 }
        else if tile.type = TileType.DIAMOND then
          { s with diamondsCollected := s.diamondsCollected + 1
                   particles := parts ++
                     [resourceLabel tx ty (COLORS .DIAMOND) "+1 DIAMOND"]
                   screenShake := 5 }
        else { s with particles := parts, screenShake := 5 }
      { s1 with grid := setTile s.grid ty tx ⟨TileType.AIR, d, tile.maxDurability⟩ }
    else
      { s with particles := parts
               grid := setTile s.grid ty tx ⟨tile.type, d, tile.maxDurability⟩ }
  else s

/-- The mining half of `handleCanvasClick`: tile coordinates from the
world-space pointer position, bounds check, interaction-radius check
(`TILE_SIZE * 3.5` from the player center to the tile center), then the
tile mutation. -/
def minePhase (rnd : ℕ → ℚ) (mouse : Vec2) (s : GameState) : GameState :=
  let tx : ℤ := ⌊mouse.x / TILE_SIZE⌋
  let ty : ℤ := ⌊mouse.y / TILE_SIZE⌋
  if tx < 0 ∨ GRID_WIDTH ≤ tx ∨ ty < 0 ∨ GRID_HEIGHT ≤ ty then s
  else if distSq ⟨((tx : ℚ) + 1 / 2) * TILE_SIZE, ((ty : ℚ) + 1 / 2) * TILE_SIZE⟩
      ⟨s.player.pos.x + TILE_SIZE / 2, s.player.pos.y + TILE_SIZE / 2⟩ <
      (TILE_SIZE * (7 / 2)) ^ 2 then
    mineTileAt rnd tx ty s
  else s

/-- `handleCanvasClick`: no-op unless PLAYING; then the click-attack phase
always runs, and the mining phase runs only when no enemy was hit
(`hitAnyEnemy` gate).  `rndA`/`rndM` are the random draws consumed by the
two phases. -/
def handleCanvasClick (rndA rndM : ℕ → ℚ) (mouse : Vec2) (s : GameState) : GameState :=
  if s.status ≠ GameStatus.PLAYING then s
  else if s.enemies.any (clickHit mouse) then clickAttackPhase rndA mouse s
  else minePhase rndM mouse (clickAttackPhase rndA mouse s)

/-! ## The per-tick simulation step (`update`) -/

/-- Cooldown decay at the top of `update`: the attack cooldown counts down
(clearing the attacking flag once below `ATTACK_COOLDOWN - 5`), then the
damage cooldown counts down. -/
def decayCooldowns (p : Entity) : Entity :=
  let p1 :=
    if 0 < p.attackCooldown then
      { p with attackCooldown := p.attackCooldown - 1
               isAttacking :=
                 if p.attackCooldown - 1 < ATTACK_COOLDOWN - 5 then false
                 else p.isAttacking }
    else p
  if 0 < p1.damageCooldown then { p1 with damageCooldown := p1.damageCooldown - 1 }
  else p1

/-- Horizontal movement intent (speed 5 per held direction). -/
def intentDx (inp : Input) : ℚ :=
  (if inp.left then -5 else 0) + (if inp.right then 5 else 0)

/-- Vertical movement intent. -/
def intentDy (inp : Input) : ℚ :=
  (if inp.up then -5 else 0) + (if inp.down then 5 else 0)

/-- Facing update from horizontal keys (right overrides left, as the
source sets `direction` in key order). -/
def playerDir (inp : Input) (d : ℤ) : ℤ :=
  if inp.right then 1 else if inp.left then -1 else d

/-- Particle advance of `update`: integrate velocity, add gravity 0.2,
decrement life, drop dead particles. -/
def stepParticles (ps : List Particle) : List Particle :=
  (ps.map fun p =>
    { p with pos := ⟨p.pos.x + p.vel.x, p.pos.y + p.vel.y⟩
             vel := ⟨p.vel.x, p.vel.y + 1 / 5⟩
             life := p.life - 1 }).filter fun p => 0 < p.life

/-- Accumulator of the enemy loop in `update`.  The source mutates
`next.player`, `next.screenShake` and `next.particles` from inside the
loop, so they are threaded here. -/
structure EnemyAcc where
  enemies : List Entity
  player : Entity
  screenShake : ℚ
  particles : List Particle
  k : ℕ

/-- Body of the enemy loop in `update`.  `dsq` is the (squared) distance
computed at loop entry, before the enemy moves; `steer` stands for
`(Math.cos a * 1.5, Math.sin a * 1.5)` of the pursuit angle
`a = atan2(player - enemy)`, abstracted because it is transcendental.
Within aggro range (250) the enemy moves axis-separately and faces the
player (the facing test reads the already-moved x through the shared `pos`
reference).  Within contact range (`TILE_SIZE * 0.7`), if the player's
damage cooldown is 0: contact damage, cooldown reset, screen shake 10 and
hit particles on the player. -/
def enemyStep (g : Grid) (steer : Vec2 → Vec2 → ℚ × ℚ) (rnd : ℕ → ℚ)
    (acc : EnemyAcc) (e : Entity) : EnemyAcc :=
  let dsq := distSq acc.player.pos e.pos
  let e1 :=
    if dsq < 250 ^ 2 then
      let sv := steer acc.player.pos e.pos
      let newPos := moveBody g e.pos sv.1 sv.2
      { e with pos := newPos
               direction := if newPos.x < acc.player.pos.x then 1 else -1 }
    else e
  if dsq < (TILE_SIZE * (7 / 10)) ^ 2 ∧ acc.player.damageCooldown = 0 then
    { enemies := acc.enemies ++ [e1]
      player := { acc.player with health := acc.player.health - ENEMY_DAMAGE
                                  damageCooldown := DAMAGE_COOLDOWN }
      screenShake := 10
      particles := acc.particles ++
        hitParticles rnd acc.k (acc.player.pos.x + TILE_SIZE / 2)
          (acc.player.pos.y + TILE_SIZE / 2)
      k := acc.k + 10 }
  else { acc with enemies := acc.enemies ++ [e1] }

/-- The per-tick `update`: a no-op unless PLAYING; otherwise decay
cooldowns, move the player axis-separately from the key intent, recenter
the camera, decay the screen shake by 0.9, advance particles, run the
enemy loop, and go LOST when the player's health is ≤ 0. -/
def update (inp : Input) (steer : Vec2 → Vec2 → ℚ × ℚ) (rnd : ℕ → ℚ)
    (s : GameState) : GameState :=
  if s.status ≠ GameStatus.PLAYING then s
  else
    let p2 := decayCooldowns s.player
    let p3 := { p2 with direction := playerDir inp p2.direction }
    let newPos := moveBody s.grid p3.pos (intentDx inp) (intentDy inp)
    let p4 := { p3 with pos := newPos }
    let accF := s.enemies.foldl (enemyStep s.grid steer rnd)
      ⟨[], p4,
        (if 0 < s.screenShake then s.screenShake * (9 / 10) else s.screenShake),
        stepParticles s.particles, 0⟩
    { s with
        player := accF.player
        enemies := accF.enemies
        camera := ⟨newPos.x - VIEWPORT_WIDTH / 2 + TILE_SIZE / 2,
                   newPos.y - VIEWPORT_HEIGHT / 2 + TILE_SIZE / 2⟩
        screenShake := accF.screenShake
        particles := accF.particles
        status := if accF.player.health ≤ 0 then GameStatus.LOST else s.status }

/-! ## Basic lemmas -/

lemma mem_rangeClosed {a b x : ℤ} : x ∈ rangeClosed a b ↔ a ≤ x ∧ x ≤ b := by
  unfold rangeClosed
  constructor
  · intro hx
    obtain ⟨i, hi, rfl⟩ := List.mem_map.mp hx
    rw [List.mem_range, Int.lt_toNat] at hi
    omega
  · rintro ⟨h1, h2⟩
    refine List.mem_map.mpr ⟨(x - a).toNat, ?_, ?_⟩
    · rw [List.mem_range, Int.lt_toNat, Int.toNat_of_nonneg (by omega)]
      omega
    · rw [Int.toNat_of_nonneg (by omega)]
      omega

lemma checkCollision_iff (g : Grid) (px py : ℚ) :
    checkCollision g px py = true ↔
      ∃ tx ty : ℤ,
        ⌊(px + 8) / TILE_SIZE⌋ ≤ tx ∧ tx ≤ ⌊(px + TILE_SIZE - 8) / TILE_SIZE⌋ ∧
        ⌊(py + 8) / TILE_SIZE⌋ ≤ ty ∧ ty ≤ ⌊(py + TILE_SIZE - 8) / TILE_SIZE⌋ ∧
        (ty < 0 ∨ GRID_HEIGHT ≤ ty ∨ tx < 0 ∨ GRID_WIDTH ≤ tx ∨
          (g ty tx).type ≠ TileType.AIR) := by
  unfold checkCollision
  simp only [List.any_eq_true, mem_rangeClosed, Bool.or_eq_true, decide_eq_true_eq]
  constructor
  · rintro ⟨y, ⟨hy1, hy2⟩, x, ⟨hx1, hx2⟩, h⟩
    exact ⟨x, y, hx1, hx2, hy1, hy2, by tauto⟩
  · rintro ⟨tx, ty, h1, h2, h3, h4, h5⟩
    exact ⟨ty, ⟨h3, h4⟩, tx, ⟨h1, h2⟩, by tauto⟩

lemma moveBody_not_collide (g : Grid) (pos : Vec2) (dx dy : ℚ)
    (h : checkCollision g pos.x pos.y = false) :
    checkCollision g (moveBody g pos dx dy).x (moveBody g pos dx dy).y = false := by
  unfold moveBody
  dsimp only
  by_cases h2 : checkCollision g
      (if checkCollision g (pos.x + dx) pos.y then pos.x else pos.x + dx)
      (pos.y + dy) = true
  · simp only [h2, if_true]
    by_cases h1 : checkCollision g (pos.x + dx) pos.y = true
    · simpa [h1] using h
    · simp only [Bool.not_eq_true] at h1
      simp [h1]
  · simp only [Bool.not_eq_true] at h2
    simp [h2]

lemma moveBody_zero (g : Grid) (pos : Vec2) : moveBody g pos 0 0 = pos := by
  unfold moveBody
  dsimp only
  split_ifs <;> refine Vec2.ext ?_ ?_ <;> simp_all [add_zero]

/-- C4: the collision query over a rectangular body with inward margin 8
holds exactly when some covered tile index is out of grid bounds
(out-of-bounds treated as solid) or holds a non-AIR tile; and a body whose
position is collision free stays collision free after one axis-separated
movement step (`moveBody`, used for the player and for hostiles), for any
per-axis displacement. -/
theorem C4_collision_query_and_movement :
    (∀ (g : Grid) (px py : ℚ), checkCollision g px py = true ↔
      ∃ tx ty : ℤ,
        ⌊(px + 8) / TILE_SIZE⌋ ≤ tx ∧ tx ≤ ⌊(px + TILE_SIZE - 8) / TILE_SIZE⌋ ∧
        ⌊(py + 8) / TILE_SIZE⌋ ≤ ty ∧ ty ≤ ⌊(py + TILE_SIZE - 8) / TILE_SIZE⌋ ∧
        (ty < 0 ∨ GRID_HEIGHT ≤ ty ∨ tx < 0 ∨ GRID_WIDTH ≤ tx ∨
          (g ty tx).type ≠ TileType.AIR)) ∧
    (∀ (g : Grid) (pos : Vec2) (dx dy : ℚ),
      checkCollision g pos.x pos.y = false →
      checkCollision g (moveBody g pos dx dy).x (moveBody g pos dx dy).y = false) :=
  ⟨checkCollision_iff, moveBody_not_collide⟩

/-- All-air grid used by concrete scenarios. -/
def airGrid : Grid := fun _ _ => airTile

lemma airGrid_free : checkCollision airGrid (800 : ℚ) (160 : ℚ) = false := by
  norm_num [checkCollision, rangeClosed, airGrid, airTile, TILE_SIZE, GRID_WIDTH,
    GRID_HEIGHT]

/-- Witness for C4 at a concrete body position and displacement. -/
theorem C4_witness :
    checkCollision airGrid (800 : ℚ) (160 : ℚ) = false ∧
    checkCollision airGrid (moveBody airGrid ⟨800, 160⟩ 5 0).x
      (moveBody airGrid ⟨800, 160⟩ 5 0).y = false :=
  ⟨airGrid_free,
    C4_collision_query_and_movement.2 airGrid ⟨800, 160⟩ 5 0 airGrid_free⟩

/-! ## Projection lemmas for the click handler -/

lemma clickAttackPhase_grid (rnd : ℕ → ℚ) (m : Vec2) (s : GameState) :
    (clickAttackPhase rnd m s).grid = s.grid := rfl

lemma clickAttackPhase_shards (rnd : ℕ → ℚ) (m : Vec2) (s : GameState) :
    (clickAttackPhase rnd m s).shardsCollected = s.shardsCollected := rfl

lemma clickAttackPhase_gold (rnd : ℕ → ℚ) (m : Vec2) (s : GameState) :
    (clickAttackPhase rnd m s).goldCollected = s.goldCollected := rfl

lemma clickAttackPhase_diamonds (rnd : ℕ → ℚ) (m : Vec2) (s : GameState) :
    (clickAttackPhase rnd m s).diamondsCollected = s.diamondsCollected := rfl

lemma clickAttackPhase_status (rnd : ℕ → ℚ) (m : Vec2) (s : GameState) :
    (clickAttackPhase rnd m s).status = s.status := rfl

lemma clickAttackPhase_pos (rnd : ℕ → ℚ) (m : Vec2) (s : GameState) :
    (clickAttackPhase rnd m s).player.pos = s.player.pos := by
  unfold clickAttackPhase
  dsimp only
  split_ifs <;> rfl

lemma minePhase_player (rnd : ℕ → ℚ) (m : Vec2) (s : GameState) :
    (minePhase rnd m s).player = s.player := by
  unfold minePhase mineTileAt
  dsimp only
  split_ifs <;> rfl

lemma minePhase_enemies (rnd : ℕ → ℚ) (m : Vec2) (s : GameState) :
    (minePhase rnd m s).enemies = s.enemies := by
  unfold minePhase mineTileAt
  dsimp only
  split_ifs <;> rfl

/-- C9: applying the mining action to a tile whose type is AIR leaves the
whole state unchanged (grid, resource counters, particles, screen shake and
everything else). -/
theorem C9_mine_air_noop (rnd : ℕ → ℚ) (mouse : Vec2) (s : GameState)
    (h : (s.grid ⌊mouse.y / TILE_SIZE⌋ ⌊mouse.x / TILE_SIZE⌋).type = TileType.AIR) :
    minePhase rnd mouse s = s := by
  unfold minePhase mineTileAt
  simp [h]

/-- Concrete state on an all-air grid used by the C9 witness. -/
def sC9 : GameState :=
  ⟨.PLAYING, ⟨"player", ⟨800, 480⟩, ⟨800, 480⟩, .PLAYER, 200, 200, 1, false, 0, 0⟩,
    [], airGrid, 0, 0, 0, ⟨0, 0⟩, none, [], 0⟩

/-- Witness for C9: mining an AIR tile of a concrete state is a no-op. -/
theorem C9_witness :
    (sC9.grid ⌊(500 : ℚ) / TILE_SIZE⌋ ⌊(820 : ℚ) / TILE_SIZE⌋).type = TileType.AIR ∧
    minePhase (fun _ => 0) ⟨820, 500⟩ sC9 = sC9 :=
  ⟨rfl, C9_mine_air_noop (fun _ => 0) ⟨820, 500⟩ sC9 rfl⟩

/-- C8: while PLAYING, a pointer press that hits at least one hostile
(`hitAnyEnemy`) reduces to the click-attack phase alone: the grid, the
shard/gold/diamond counters are unchanged and no mining code runs. -/
theorem C8_hit_skips_mining (rndA rndM : ℕ → ℚ) (mouse : Vec2) (s : GameState)
    (hst : s.status = GameStatus.PLAYING)
    (hhit : s.enemies.any (clickHit mouse) = true) :
    handleCanvasClick rndA rndM mouse s = clickAttackPhase rndA mouse s ∧
    (handleCanvasClick rndA rndM mouse s).grid = s.grid ∧
    (handleCanvasClick rndA rndM mouse s).shardsCollected = s.shardsCollected ∧
    (handleCanvasClick rndA rndM mouse s).goldCollected = s.goldCollected ∧
    (handleCanvasClick rndA rndM mouse s).diamondsCollected = s.diamondsCollected := by
  have h1 : handleCanvasClick rndA rndM mouse s = clickAttackPhase rndA mouse s := by
    unfold handleCanvasClick
    rw [if_neg (by simp [hst]), if_pos hhit]
  exact ⟨h1, by rw [h1]; exact clickAttackPhase_grid .., by rw [h1]; rfl,
    by rw [h1]; rfl, by rw [h1]; rfl⟩

/-! ## Win transition (C3) -/

lemma mineTileAt_shard_break (rnd : ℕ → ℚ) (tx ty : ℤ) (s : GameState)
    (htype : (s.grid ty tx).type = TileType.SHARD)
    (hdur : (s.grid ty tx).durability - 8 ≤ 0) :
    (mineTileAt rnd tx ty s).status =
      (if SHARD_GOAL ≤ s.shardsCollected + 1 then GameStatus.WON else s.status) ∧
    (mineTileAt rnd tx ty s).shardsCollected = s.shardsCollected + 1 := by
  unfold mineTileAt
  simp [htype, hdur]

lemma minePhase_reduce (rnd : ℕ → ℚ) (m : Vec2) (s : GameState)
    (hb : ¬(⌊m.x / TILE_SIZE⌋ < 0 ∨ GRID_WIDTH ≤ ⌊m.x / TILE_SIZE⌋ ∨
        ⌊m.y / TILE_SIZE⌋ < 0 ∨ GRID_HEIGHT ≤ ⌊m.y / TILE_SIZE⌋))
    (hd : distSq ⟨((⌊m.x / TILE_SIZE⌋ : ℚ) + 1 / 2) * TILE_SIZE,
          ((⌊m.y / TILE_SIZE⌋ : ℚ) + 1 / 2) * TILE_SIZE⟩
        ⟨s.player.pos.x + TILE_SIZE / 2, s.player.pos.y + TILE_SIZE / 2⟩ <
        (TILE_SIZE * (7 / 2)) ^ 2) :
    minePhase rnd m s = mineTileAt rnd ⌊m.x / TILE_SIZE⌋ ⌊m.y / TILE_SIZE⌋ s := by
  unfold minePhase
  dsimp only
  rw [if_neg hb, if_pos hd]

lemma handleCanvasClick_mine (rndA rndM : ℕ → ℚ) (m : Vec2) (s : GameState)
    (hst : s.status = GameStatus.PLAYING)
    (hhit : s.enemies.any (clickHit m) = false) :
    handleCanvasClick rndA rndM m s = minePhase rndM m (clickAttackPhase rndA m s) := by
  unfold handleCanvasClick
  rw [if_neg (by simp [hst]), if_neg (by simp [hhit])]

/-- C3: the simulation step and both input handlers are no-ops on every
non-PLAYING state (so in particular once WON the status can never change
again: the transition happens at most once per session); and a mining
press that breaks a SHARD tile and brings the shard counter to the goal of
10 sets the status to WON within that same action. -/
theorem C3_win_same_action_and_exactly_once :
    (∀ (rndA rndM : ℕ → ℚ) (m : Vec2) (s : GameState),
      s.status ≠ GameStatus.PLAYING → handleCanvasClick rndA rndM m s = s) ∧
    (∀ (inp : Input) (steer : Vec2 → Vec2 → ℚ × ℚ) (rnd : ℕ → ℚ) (s : GameState),
      s.status ≠ GameStatus.PLAYING → update inp steer rnd s = s) ∧
    (∀ (rnd : ℕ → ℚ) (s : GameState),
      s.status ≠ GameStatus.PLAYING → handleAttack rnd s = s) ∧
    (∀ (rndA rndM : ℕ → ℚ) (m : Vec2) (s : GameState),
      s.status = GameStatus.PLAYING →
      s.enemies.any (clickHit m) = false →
      ¬(⌊m.x / TILE_SIZE⌋ < 0 ∨ GRID_WIDTH ≤ ⌊m.x / TILE_SIZE⌋ ∨
          ⌊m.y / TILE_SIZE⌋ < 0 ∨ GRID_HEIGHT ≤ ⌊m.y / TILE_SIZE⌋) →
      distSq ⟨((⌊m.x / TILE_SIZE⌋ : ℚ) + 1 / 2) * TILE_SIZE,
          ((⌊m.y / TILE_SIZE⌋ : ℚ) + 1 / 2) * TILE_SIZE⟩
        ⟨s.player.pos.x + TILE_SIZE / 2, s.player.pos.y + TILE_SIZE / 2⟩ <
        (TILE_SIZE * (7 / 2)) ^ 2 →
      (s.grid ⌊m.y / TILE_SIZE⌋ ⌊m.x / TILE_SIZE⌋).type = TileType.SHARD →
      (s.grid ⌊m.y / TILE_SIZE⌋ ⌊m.x / TILE_SIZE⌋).durability - 8 ≤ 0 →
      s.shardsCollected + 1 = SHARD_GOAL →
      (handleCanvasClick rndA rndM m s).status = GameStatus.WON ∧
      (handleCanvasClick rndA rndM m s).shardsCollected = s.shardsCollected + 1) := by
  refine ⟨?_, ?_, ?_, ?_⟩
  · intro rndA rndM m s h
    unfold handleCanvasClick
    rw [if_pos h]
  · intro inp steer rnd s h
    unfold update
    rw [if_pos h]
  · intro rnd s h
    unfold handleAttack
    rw [if_pos (Or.inl h)]
  · intro rndA rndM m s hst hhit hb hd htype hdur hgoal
    rw [handleCanvasClick_mine rndA rndM m s hst hhit]
    have hd' : distSq ⟨((⌊m.x / TILE_SIZE⌋ : ℚ) + 1 / 2) * TILE_SIZE,
          ((⌊m.y / TILE_SIZE⌋ : ℚ) + 1 / 2) * TILE_SIZE⟩
        ⟨(clickAttackPhase rndA m s).player.pos.x + TILE_SIZE / 2,
          (clickAttackPhase rndA m s).player.pos.y + TILE_SIZE / 2⟩ <
        (TILE_SIZE * (7 / 2)) ^ 2 := by
      rw [clickAttackPhase_pos]
      exact hd
    rw [minePhase_reduce rndM m (clickAttackPhase rndA m s) hb hd']
    have h2 := mineTileAt_shard_break rndM ⌊m.x / TILE_SIZE⌋ ⌊m.y / TILE_SIZE⌋
      (clickAttackPhase rndA m s) htype hdur
    refine ⟨?_, ?_⟩
    · rw [h2.1, clickAttackPhase_shards, hgoal, if_pos le_rfl]
    · rw [h2.2, clickAttackPhase_shards]

/-- Shared concrete ingredients for witnesses and counterexamples. -/
def rnd0 : ℕ → ℚ := fun _ => 0

def steer0 : Vec2 → Vec2 → ℚ × ℚ := fun _ _ => (0, 0)

def inp0 : Input := ⟨false, false, false, false⟩

def player0 : Entity :=
  ⟨"player", ⟨800, 480⟩, ⟨800, 480⟩, .PLAYER, 200, 200, 1, false, 0, 0⟩

def enemy0 : Entity := ⟨"enemy-0", ⟨800, 480⟩, ⟨0, 0⟩, .ZOMBIE, 100, 100, 1, false, 0, 0⟩

def gShard : Grid :=
  fun y x => if y = 12 ∧ x = 20 then ⟨TileType.SHARD, 8, 12⟩ else airTile

def sShard : GameState :=
  ⟨.PLAYING, player0, [], gShard, 9, 0, 0, ⟨0, 0⟩, none, [], 0⟩

def sC8 : GameState :=
  ⟨.PLAYING, player0, [enemy0], airGrid, 0, 0, 0, ⟨0, 0⟩, none, [], 0⟩

/-- Witness for C8: a concrete click that lands on a hostile. -/
theorem C8_witness :
    sC8.enemies.any (clickHit ⟨820, 500⟩) = true ∧
    handleCanvasClick rnd0 rnd0 ⟨820, 500⟩ sC8 = clickAttackPhase rnd0 ⟨820, 500⟩ sC8 :=
  have hhit : sC8.enemies.any (clickHit ⟨820, 500⟩) = true := by
    norm_num [sC8, List.any, clickHit, distSq, enemy0, TILE_SIZE]
  ⟨hhit, (C8_hit_skips_mining rnd0 rnd0 ⟨820, 500⟩ sC8 rfl hhit).1⟩

/-- Witness for C3: a concrete mining press that collects the 10th shard
turns the status to WON in that same action. -/
theorem C3_witness :
    (handleCanvasClick rnd0 rnd0 ⟨820, 500⟩ sShard).status = GameStatus.WON ∧
    (handleCanvasClick rnd0 rnd0 ⟨820, 500⟩ sShard).shardsCollected = 10 :=
  have h := C3_win_same_action_and_exactly_once.2.2.2 rnd0 rnd0 ⟨820, 500⟩ sShard
    rfl rfl
    (by norm_num [TILE_SIZE, GRID_WIDTH, GRID_HEIGHT])
    (by norm_num [distSq, TILE_SIZE, sShard, player0])
    (by norm_num [sShard, gShard, TILE_SIZE])
    (by norm_num [sShard, gShard, TILE_SIZE])
    (by norm_num [sShard, SHARD_GOAL])
  ⟨h.1, h.2⟩

/-! ## Pointer-kill heal (C6) -/

lemma handleAttack_player_health (rnd : ℕ → ℚ) (s : GameState) :
    (handleAttack rnd s).player.health = s.player.health := by
  unfold handleAttack
  dsimp only
  split_ifs <;> rfl

lemma clickAttackPhase_health (rnd : ℕ → ℚ) (m : Vec2) (s : GameState) :
    (clickAttackPhase rnd m s).player.health =
      (if (clickAttackPhase rnd m s).enemies.length < s.enemies.length then
        min INITIAL_PLAYER_HEALTH (s.player.health + 20)
      else s.player.health) := by
  unfold clickAttackPhase
  dsimp only
  split_ifs <;> rfl

lemma handleCanvasClick_health (rndA rndM : ℕ → ℚ) (m : Vec2) (s : GameState)
    (hst : s.status = GameStatus.PLAYING) :
    (handleCanvasClick rndA rndM m s).player.health =
      (if (clickAttackPhase rndA m s).enemies.length < s.enemies.length then
        min INITIAL_PLAYER_HEALTH (s.player.health + 20)
      else s.player.health) := by
  unfold handleCanvasClick
  rw [if_neg (by simp [hst])]
  by_cases hhit : s.enemies.any (clickHit m) = true
  · rw [if_pos hhit]
    exact clickAttackPhase_health rndA m s
  · rw [if_neg hhit]
    have hp := minePhase_player rndM m (clickAttackPhase rndA m s)
    rw [show (minePhase rndM m (clickAttackPhase rndA m s)).player.health =
        (clickAttackPhase rndA m s).player.health from by rw [hp]]
    exact clickAttackPhase_health rndA m s

/-- Two hostiles with 34 health standing on the same tile, both inside the
click radius of one pointer press. -/
def enemyA : Entity := ⟨"enemy-0", ⟨800, 480⟩, ⟨0, 0⟩, .ZOMBIE, 34, 100, 1, false, 0, 0⟩

def enemyB : Entity := ⟨"enemy-1", ⟨800, 480⟩, ⟨0, 0⟩, .ZOMBIE, 34, 100, 1, false, 0, 0⟩

def sC6 : GameState :=
  ⟨.PLAYING, { player0 with health := 100 }, [enemyA, enemyB], airGrid,
    0, 0, 0, ⟨0, 0⟩, none, [], 0⟩

/-- C6 counterexample: one pointer press kills two hostiles at once, but the
player gains only 20 health (one flat heal), not 20 per killed hostile. -/
theorem C6_counterexample :
    sC6.enemies.length = 2 ∧
    (handleCanvasClick rnd0 rnd0 ⟨820, 500⟩ sC6).enemies.length = 0 ∧
    (handleCanvasClick rnd0 rnd0 ⟨820, 500⟩ sC6).player.health =
      sC6.player.health + 20 ∧
    (handleCanvasClick rnd0 rnd0 ⟨820, 500⟩ sC6).player.health ≠
      sC6.player.health + 2 * 20 := by
  refine ⟨rfl, ?_, ?_, ?_⟩ <;>
    norm_num [handleCanvasClick, clickAttackPhase, clickStep, clickHit, distSq, sC6,
      player0, enemyA, enemyB, TILE_SIZE, CLICK_DAMAGE, INITIAL_PLAYER_HEALTH,
      List.foldl, List.any, List.filter, hitParticles, rnd0]

/-- C6 (amended): while PLAYING, a pointer press that kills at least one
hostile (the live-hostile count decreases) restores a flat 20 health once,
capped at the maximum, regardless of how many hostiles it killed; a press
that kills none leaves the health unchanged; and a melee attack never
changes the player's health. -/
theorem C6_click_heal_once_melee_none :
    (∀ (rndA rndM : ℕ → ℚ) (m : Vec2) (s : GameState),
      s.status = GameStatus.PLAYING →
      (handleCanvasClick rndA rndM m s).player.health =
        (if (clickAttackPhase rndA m s).enemies.length < s.enemies.length then
          min INITIAL_PLAYER_HEALTH (s.player.health + 20)
        else s.player.health)) ∧
    (∀ (rnd : ℕ → ℚ) (s : GameState),
      (handleAttack rnd s).player.health = s.player.health) :=
  ⟨fun rndA rndM m s hst => handleCanvasClick_health rndA rndM m s hst,
    handleAttack_player_health⟩

/-- Witness for C6 at a concrete PLAYING state. -/
theorem C6_witness :
    (handleCanvasClick rnd0 rnd0 ⟨820, 500⟩ sC8).player.health =
      (if (clickAttackPhase rnd0 ⟨820, 500⟩ sC8).enemies.length <
          sC8.enemies.length then
        min INITIAL_PLAYER_HEALTH (sC8.player.health + 20)
      else sC8.player.health) :=
  C6_click_heal_once_melee_none.1 rnd0 rnd0 ⟨820, 500⟩ sC8 rfl

/-! ## The enemy loop of `update` -/

/-- The player after the cooldown, facing and movement phases of a tick. -/
def tickPlayer (inp : Input) (g : Grid) (p : Entity) : Entity :=
  { decayCooldowns p with
      direction := playerDir inp (decayCooldowns p).direction
      pos := moveBody g (decayCooldowns p).pos (intentDx inp) (intentDy inp) }

/-- The accumulator after the whole enemy loop of a tick. -/
def tickAcc (inp : Input) (steer : Vec2 → Vec2 → ℚ × ℚ) (rnd : ℕ → ℚ)
    (s : GameState) : EnemyAcc :=
  s.enemies.foldl (enemyStep s.grid steer rnd)
    ⟨[], tickPlayer inp s.grid s.player,
      (if 0 < s.screenShake then s.screenShake * (9 / 10) else s.screenShake),
      stepParticles s.particles, 0⟩

lemma update_not_playing (inp : Input) (steer : Vec2 → Vec2 → ℚ × ℚ) (rnd : ℕ → ℚ)
    (s : GameState) (h : s.status ≠ GameStatus.PLAYING) : update inp steer rnd s = s := by
  unfold update
  rw [if_pos h]

lemma update_eq_playing (inp : Input) (steer : Vec2 → Vec2 → ℚ × ℚ) (rnd : ℕ → ℚ)
    (s : GameState) (h : s.status = GameStatus.PLAYING) :
    update inp steer rnd s =
      { s with
          player := (tickAcc inp steer rnd s).player
          enemies := (tickAcc inp steer rnd s).enemies
          camera := ⟨(tickPlayer inp s.grid s.player).pos.x - VIEWPORT_WIDTH / 2 +
                TILE_SIZE / 2,
              (tickPlayer inp s.grid s.player).pos.y - VIEWPORT_HEIGHT / 2 +
                TILE_SIZE / 2⟩
          screenShake := (tickAcc inp steer rnd s).screenShake
          particles := (tickAcc inp steer rnd s).particles
          status := if (tickAcc inp steer rnd s).player.health ≤ 0 then GameStatus.LOST
            else s.status } := by
  unfold update tickAcc tickPlayer
  rw [if_neg (by simp [h])]

lemma decayCooldowns_health (p : Entity) : (decayCooldowns p).health = p.health := by
  unfold decayCooldowns
  dsimp only
  split_ifs <;> rfl

lemma decayCooldowns_pos (p : Entity) : (decayCooldowns p).pos = p.pos := by
  unfold decayCooldowns
  dsimp only
  split_ifs <;> rfl

lemma decayCooldowns_damageCooldown (p : Entity) :
    (decayCooldowns p).damageCooldown =
      (if 0 < p.damageCooldown then p.damageCooldown - 1 else p.damageCooldown) := by
  unfold decayCooldowns
  dsimp only
  split_ifs <;> rfl

lemma tickPlayer_health (inp : Input) (g : Grid) (p : Entity) :
    (tickPlayer inp g p).health = p.health := by
  unfold tickPlayer
  dsimp only
  exact decayCooldowns_health p

lemma tickPlayer_damageCooldown (inp : Input) (g : Grid) (p : Entity) :
    (tickPlayer inp g p).damageCooldown =
      (if 0 < p.damageCooldown then p.damageCooldown - 1 else p.damageCooldown) := by
  unfold tickPlayer
  dsimp only
  exact decayCooldowns_damageCooldown p

lemma enemyStep_player_skip (g : Grid) (steer : Vec2 → Vec2 → ℚ × ℚ) (rnd : ℕ → ℚ)
    (acc : EnemyAcc) (e : Entity) (h : acc.player.damageCooldown ≠ 0) :
    (enemyStep g steer rnd acc e).player = acc.player := by
  unfold enemyStep
  dsimp only
  rw [if_neg (fun hc => h hc.2)]

lemma enemyStep_player_hit (g : Grid) (steer : Vec2 → Vec2 → ℚ × ℚ) (rnd : ℕ → ℚ)
    (acc : EnemyAcc) (e : Entity)
    (hc : distSq acc.player.pos e.pos < (TILE_SIZE * (7 / 10)) ^ 2 ∧
      acc.player.damageCooldown = 0) :
    (enemyStep g steer rnd acc e).player =
      { acc.player with health := acc.player.health - ENEMY_DAMAGE
                        damageCooldown := DAMAGE_COOLDOWN } := by
  unfold enemyStep
  dsimp only
  rw [if_pos hc]

lemma enemyStep_player_miss (g : Grid) (steer : Vec2 → Vec2 → ℚ × ℚ) (rnd : ℕ → ℚ)
    (acc : EnemyAcc) (e : Entity)
    (hc : ¬(distSq acc.player.pos e.pos < (TILE_SIZE * (7 / 10)) ^ 2 ∧
      acc.player.damageCooldown = 0)) :
    (enemyStep g steer rnd acc e).player = acc.player := by
  unfold enemyStep
  dsimp only
  rw [if_neg hc]

lemma foldl_enemyStep_player_skip (g : Grid) (steer : Vec2 → Vec2 → ℚ × ℚ)
    (rnd : ℕ → ℚ) :
    ∀ (l : List Entity) (acc : EnemyAcc), acc.player.damageCooldown ≠ 0 →
      (l.foldl (enemyStep g steer rnd) acc).player = acc.player := by
  intro l
  induction l with
  | nil => intro acc _; rfl
  | cons e t ih =>
    intro acc h
    have hstep := enemyStep_player_skip g steer rnd acc e h
    rw [List.foldl_cons, ih (enemyStep g steer rnd acc e) (by rw [hstep]; exact h),
      hstep]

lemma foldl_enemyStep_health (g : Grid) (steer : Vec2 → Vec2 → ℚ × ℚ)
    (rnd : ℕ → ℚ) :
    ∀ (l : List Entity) (acc : EnemyAcc),
      (l.foldl (enemyStep g steer rnd) acc).player = acc.player ∨
      (acc.player.damageCooldown = 0 ∧
        (l.foldl (enemyStep g steer rnd) acc).player =
          { acc.player with health := acc.player.health - ENEMY_DAMAGE
                            damageCooldown := DAMAGE_COOLDOWN }) := by
  intro l
  induction l with
  | nil => intro acc; exact Or.inl rfl
  | cons e t ih =>
    intro acc
    rw [List.foldl_cons]
    by_cases hc : distSq acc.player.pos e.pos < (TILE_SIZE * (7 / 10)) ^ 2 ∧
        acc.player.damageCooldown = 0
    · have hstep := enemyStep_player_hit g steer rnd acc e hc
      refine Or.inr ⟨hc.2, ?_⟩
      rw [foldl_enemyStep_player_skip g steer rnd t _
        (by rw [hstep]; norm_num [DAMAGE_COOLDOWN]), hstep]
    · have hstep := enemyStep_player_miss g steer rnd acc e hc
      rcases ih (enemyStep g steer rnd acc e) with h | ⟨h1, h2⟩
      · exact Or.inl (by rw [h, hstep])
      · rw [hstep] at h1 h2
        exact Or.inr ⟨h1, h2⟩

lemma foldl_enemyStep_damage (g : Grid) (steer : Vec2 → Vec2 → ℚ × ℚ)
    (rnd : ℕ → ℚ) :
    ∀ (l : List Entity) (acc : EnemyAcc), acc.player.damageCooldown = 0 →
      (∃ e ∈ l, distSq acc.player.pos e.pos < (TILE_SIZE * (7 / 10)) ^ 2) →
      (l.foldl (enemyStep g steer rnd) acc).player =
        { acc.player with health := acc.player.health - ENEMY_DAMAGE
                          damageCooldown := DAMAGE_COOLDOWN } := by
  intro l
  induction l with
  | nil =>
    rintro acc _ ⟨e, he, -⟩
    cases he
  | cons e t ih =>
    rintro acc hcd hex
    rw [List.foldl_cons]
    by_cases hc : distSq acc.player.pos e.pos < (TILE_SIZE * (7 / 10)) ^ 2
    · have hstep := enemyStep_player_hit g steer rnd acc e ⟨hc, hcd⟩
      rw [foldl_enemyStep_player_skip g steer rnd t _
        (by rw [hstep]; norm_num [DAMAGE_COOLDOWN]), hstep]
    · have hstep := enemyStep_player_miss g steer rnd acc e (fun hh => hc hh.1)
      obtain ⟨e', he', hd'⟩ := hex
      rcases List.mem_cons.mp he' with rfl | hmem
      · exact absurd hd' hc
      · rw [ih (enemyStep g steer rnd acc e) (by rw [hstep]; exact hcd)
          ⟨e', hmem, by rw [hstep]; exact hd'⟩, hstep]

lemma enemyStep_enemies_eq (g : Grid) (steer : Vec2 → Vec2 → ℚ × ℚ) (rnd : ℕ → ℚ)
    (acc : EnemyAcc) (e : Entity) :
    ∃ e1 : Entity, (enemyStep g steer rnd acc e).enemies = acc.enemies ++ [e1] ∧
      e1.health = e.health := by
  unfold enemyStep
  dsimp only
  split_ifs <;> exact ⟨_, rfl, rfl⟩

lemma foldl_enemyStep_enemies_health (g : Grid) (steer : Vec2 → Vec2 → ℚ × ℚ)
    (rnd : ℕ → ℚ) :
    ∀ (l : List Entity) (acc : EnemyAcc),
      ((l.foldl (enemyStep g steer rnd) acc).enemies).map Entity.health =
        acc.enemies.map Entity.health ++ l.map Entity.health := by
  intro l
  induction l with
  | nil => intro acc; simp
  | cons e t ih =>
    intro acc
    obtain ⟨e1, he1, hh⟩ := enemyStep_enemies_eq g steer rnd acc e
    rw [List.foldl_cons, ih (enemyStep g steer rnd acc e), he1]
    simp [hh]

lemma update_health_dichotomy (inp : Input)
    (steer : Vec2 → Vec2 → ℚ × ℚ) (rnd : ℕ → ℚ) (s : GameState) :
    (update inp steer rnd s).player.health = s.player.health ∨
    (update inp steer rnd s).player.health = s.player.health - ENEMY_DAMAGE := by
  by_cases h : s.status = GameStatus.PLAYING
  · rw [update_eq_playing inp steer rnd s h]
    dsimp only
    rcases foldl_enemyStep_health s.grid steer rnd s.enemies
        ⟨[], tickPlayer inp s.grid s.player,
          (if 0 < s.screenShake then s.screenShake * (9 / 10) else s.screenShake),
          stepParticles s.particles, 0⟩ with h1 | ⟨-, h2⟩
    · left
      rw [show (tickAcc inp steer rnd s).player =
          tickPlayer inp s.grid s.player from h1]
      exact tickPlayer_health inp s.grid s.player
    · right
      rw [show (tickAcc inp steer rnd s).player =
          { tickPlayer inp s.grid s.player with
              health := (tickPlayer inp s.grid s.player).health - ENEMY_DAMAGE
              damageCooldown := DAMAGE_COOLDOWN } from h2]
      dsimp only
      rw [tickPlayer_health inp s.grid s.player]
  · rw [update_not_playing inp steer rnd s h]
    exact Or.inl rfl

/-- C10: in any single simulation tick the player takes contact damage at
most once: the tick either leaves the player's health unchanged or lowers
it by exactly one `ENEMY_DAMAGE` (34), no matter how many hostiles are
simultaneously in contact range — the first application resets the damage
cooldown inside the same per-hostile loop and blocks the rest. -/
theorem C10_contact_damage_at_most_once_per_tick (inp : Input)
    (steer : Vec2 → Vec2 → ℚ × ℚ) (rnd : ℕ → ℚ) (s : GameState) :
    (update inp steer rnd s).player.health = s.player.health ∨
    (update inp steer rnd s).player.health = s.player.health - ENEMY_DAMAGE :=
  update_health_dichotomy inp steer rnd s

/-! ## Health invariants (C2) -/

lemma handleCanvasClick_not_playing (rndA rndM : ℕ → ℚ) (m : Vec2) (s : GameState)
    (h : s.status ≠ GameStatus.PLAYING) : handleCanvasClick rndA rndM m s = s := by
  unfold handleCanvasClick
  rw [if_pos h]

lemma clickAttackPhase_enemies_pos (rnd : ℕ → ℚ) (m : Vec2) (s : GameState) :
    ∀ e ∈ (clickAttackPhase rnd m s).enemies, 0 < e.health := by
  intro e he
  unfold clickAttackPhase at he
  dsimp only at he
  simp only [List.mem_filter, decide_eq_true_eq] at he
  exact he.2

lemma handleAttack_enemies_pos (rnd : ℕ → ℚ) (s : GameState)
    (hpos : ∀ e ∈ s.enemies, 0 < e.health) :
    ∀ e ∈ (handleAttack rnd s).enemies, 0 < e.health := by
  intro e he
  unfold handleAttack at he
  dsimp only at he
  split_ifs at he with hg
  · exact hpos e he
  · simp only [List.mem_filter, decide_eq_true_eq] at he
    exact he.2

lemma handleCanvasClick_enemies_pos (rndA rndM : ℕ → ℚ) (m : Vec2) (s : GameState)
    (hpos : ∀ e ∈ s.enemies, 0 < e.health) :
    ∀ e ∈ (handleCanvasClick rndA rndM m s).enemies, 0 < e.health := by
  intro e he
  unfold handleCanvasClick at he
  split_ifs at he with h1 h2
  · exact hpos e he
  · exact clickAttackPhase_enemies_pos rndA m s e he
  · rw [minePhase_enemies] at he
    exact clickAttackPhase_enemies_pos rndA m s e he

lemma update_enemies_healths (inp : Input) (steer : Vec2 → Vec2 → ℚ × ℚ)
    (rnd : ℕ → ℚ) (s : GameState) :
    ((update inp steer rnd s).enemies).map Entity.health =
      s.enemies.map Entity.health := by
  by_cases h : s.status = GameStatus.PLAYING
  · rw [update_eq_playing inp steer rnd s h]
    dsimp only
    have h3 := foldl_enemyStep_enemies_health s.grid steer rnd s.enemies
      ⟨[], tickPlayer inp s.grid s.player,
        (if 0 < s.screenShake then s.screenShake * (9 / 10) else s.screenShake),
        stepParticles s.particles, 0⟩
    simpa using h3
  · rw [update_not_playing inp steer rnd s h]

lemma update_lost (inp : Input) (steer : Vec2 → Vec2 → ℚ × ℚ) (rnd : ℕ → ℚ)
    (s : GameState) (h : s.status = GameStatus.PLAYING)
    (hh : (update inp steer rnd s).player.health ≤ 0) :
    (update inp steer rnd s).status = GameStatus.LOST := by
  rw [update_eq_playing inp steer rnd s h] at hh ⊢
  dsimp only at hh ⊢
  rw [if_pos hh]

/-- C2 (amended): every hostile in the live set after a melee attack or a
pointer press has health > 0 (a hostile brought to health ≤ 0 is dropped in
that same resolution step), and the tick never changes hostile healths;
the player's health never exceeds `maxHealth` under any operation (the
pointer-kill heal is capped), and the tick that leaves it ≤ 0 sets the
status to LOST; but there is no lower clamp at 0 (see the
counterexample). -/
theorem C2_live_hostiles_positive_player_capped :
    (∀ (rnd : ℕ → ℚ) (s : GameState), (∀ e ∈ s.enemies, 0 < e.health) →
      ∀ e ∈ (handleAttack rnd s).enemies, 0 < e.health) ∧
    (∀ (rndA rndM : ℕ → ℚ) (m : Vec2) (s : GameState),
      (∀ e ∈ s.enemies, 0 < e.health) →
      ∀ e ∈ (handleCanvasClick rndA rndM m s).enemies, 0 < e.health) ∧
    (∀ (inp : Input) (steer : Vec2 → Vec2 → ℚ × ℚ) (rnd : ℕ → ℚ) (s : GameState),
      ((update inp steer rnd s).enemies).map Entity.health =
        s.enemies.map Entity.health) ∧
    (∀ (inp : Input) (steer : Vec2 → Vec2 → ℚ × ℚ) (rnd : ℕ → ℚ) (s : GameState),
      s.player.health ≤ s.player.maxHealth →
      (update inp steer rnd s).player.health ≤ s.player.maxHealth) ∧
    (∀ (rndA rndM : ℕ → ℚ) (m : Vec2) (s : GameState),
      s.player.health ≤ s.player.maxHealth →
      s.player.maxHealth = INITIAL_PLAYER_HEALTH →
      (handleCanvasClick rndA rndM m s).player.health ≤ s.player.maxHealth) ∧
    (∀ (rnd : ℕ → ℚ) (s : GameState),
      (handleAttack rnd s).player.health = s.player.health) ∧
    (∀ (inp : Input) (steer : Vec2 → Vec2 → ℚ × ℚ) (rnd : ℕ → ℚ) (s : GameState),
      s.status = GameStatus.PLAYING →
      (update inp steer rnd s).player.health ≤ 0 →
      (update inp steer rnd s).status = GameStatus.LOST) := by
  refine ⟨handleAttack_enemies_pos, handleCanvasClick_enemies_pos,
    update_enemies_healths, ?_, ?_, handleAttack_player_health, update_lost⟩
  · intro inp steer rnd s hle
    have hE : ENEMY_DAMAGE = 34 := rfl
    rcases update_health_dichotomy inp steer rnd s with h | h <;> rw [h] <;> omega
  · intro rndA rndM m s hle hmax
    by_cases hst : s.status = GameStatus.PLAYING
    · rw [handleCanvasClick_health rndA rndM m s hst]
      split_ifs
      · rw [hmax]
        exact min_le_left _ _
      · exact hle
    · rw [handleCanvasClick_not_playing rndA rndM m s hst]
      exact hle

/-- Concrete PLAYING state: player at 30 health with a hostile in contact
and no damage cooldown. -/
def sC2 : GameState :=
  ⟨.PLAYING, { player0 with health := 30 }, [enemy0], airGrid,
    0, 0, 0, ⟨0, 0⟩, none, [], 0⟩

/-- C2 counterexample: the killing contact hit takes the player from
health 30 (within `[0, maxHealth]`) to health −4 < 0 — the code never
clamps the player's health at 0. -/
theorem C2_counterexample :
    (0 ≤ sC2.player.health ∧ sC2.player.health ≤ sC2.player.maxHealth) ∧
    (update inp0 steer0 rnd0 sC2).player.health = -4 ∧
    (update inp0 steer0 rnd0 sC2).player.health < 0 := by
  have h : (update inp0 steer0 rnd0 sC2).player.health = -4 := by
    norm_num [update, sC2, player0, enemy0, inp0, steer0, rnd0, decayCooldowns,
      playerDir, intentDx, intentDy, moveBody, enemyStep, distSq, TILE_SIZE,
      ENEMY_DAMAGE, DAMAGE_COOLDOWN, stepParticles, List.foldl, hitParticles]
  exact ⟨by norm_num [sC2, player0], h, by rw [h]; norm_num⟩

/-- Witness for C2: the cap clause applied at a concrete full-health state. -/
theorem C2_witness :
    sC2.player.health ≤ sC2.player.maxHealth ∧
    (update inp0 steer0 rnd0 sC2).player.health ≤ sC2.player.maxHealth :=
  have hle : sC2.player.health ≤ sC2.player.maxHealth := by
    norm_num [sC2, player0]
  ⟨hle, C2_live_hostiles_positive_player_capped.2.2.2.1 inp0 steer0 rnd0 sC2 hle⟩

/-! ## Damage-cooldown timing (C5) -/

lemma tick_no_damage (inp : Input) (steer : Vec2 → Vec2 → ℚ × ℚ) (rnd : ℕ → ℚ)
    (s : GameState) (h : s.status = GameStatus.PLAYING)
    (hcd : 1 < s.player.damageCooldown) :
    (update inp steer rnd s).player.health = s.player.health ∧
    (update inp steer rnd s).player.damageCooldown = s.player.damageCooldown - 1 ∧
    (0 < s.player.health → (update inp steer rnd s).status = GameStatus.PLAYING) := by
  have hdec : (tickPlayer inp s.grid s.player).damageCooldown =
      s.player.damageCooldown - 1 := by
    rw [tickPlayer_damageCooldown, if_pos (by omega)]
  have hAcc : (tickAcc inp steer rnd s).player = tickPlayer inp s.grid s.player :=
    foldl_enemyStep_player_skip s.grid steer rnd s.enemies
      ⟨[], tickPlayer inp s.grid s.player,
        (if 0 < s.screenShake then s.screenShake * (9 / 10) else s.screenShake),
        stepParticles s.particles, 0⟩
      (by dsimp only; rw [hdec]; omega)
  rw [update_eq_playing inp steer rnd s h]
  dsimp only
  refine ⟨?_, ?_, ?_⟩
  · rw [hAcc, tickPlayer_health]
  · rw [hAcc, hdec]
  · intro hph
    rw [hAcc, tickPlayer_health, if_neg (by omega), h]

lemma tick_damage (steer : Vec2 → Vec2 → ℚ × ℚ) (rnd : ℕ → ℚ) (s : GameState)
    (h : s.status = GameStatus.PLAYING)
    (hcd : s.player.damageCooldown = 1)
    (hcontact : ∃ e ∈ s.enemies,
      distSq s.player.pos e.pos < (TILE_SIZE * (7 / 10)) ^ 2) :
    (update inp0 steer rnd s).player.health = s.player.health - ENEMY_DAMAGE ∧
    (update inp0 steer rnd s).player.damageCooldown = DAMAGE_COOLDOWN := by
  have hdx : intentDx inp0 = 0 := by norm_num [intentDx, inp0]
  have hdy : intentDy inp0 = 0 := by norm_num [intentDy, inp0]
  have hpos : (tickPlayer inp0 s.grid s.player).pos = s.player.pos := by
    unfold tickPlayer
    dsimp only
    rw [hdx, hdy, moveBody_zero, decayCooldowns_pos]
  have hdec : (tickPlayer inp0 s.grid s.player).damageCooldown = 0 := by
    rw [tickPlayer_damageCooldown, hcd]
    norm_num
  have hcontact' : ∃ e ∈ s.enemies,
      distSq (tickPlayer inp0 s.grid s.player).pos e.pos <
        (TILE_SIZE * (7 / 10)) ^ 2 := by
    obtain ⟨e, he, hd⟩ := hcontact
    exact ⟨e, he, by rw [hpos]; exact hd⟩
  have hAcc : (tickAcc inp0 steer rnd s).player =
      { tickPlayer inp0 s.grid s.player with
          health := (tickPlayer inp0 s.grid s.player).health - ENEMY_DAMAGE
          damageCooldown := DAMAGE_COOLDOWN } :=
    foldl_enemyStep_damage s.grid steer rnd s.enemies
      ⟨[], tickPlayer inp0 s.grid s.player,
        (if 0 < s.screenShake then s.screenShake * (9 / 10) else s.screenShake),
        stepParticles s.particles, 0⟩
      hdec hcontact'
  rw [update_eq_playing inp0 steer rnd s h]
  dsimp only
  rw [hAcc]
  exact ⟨by dsimp only; rw [tickPlayer_health], rfl⟩

/-- C5: once a contact-damage event has set `damageCooldown` to 60, the 59
following ticks deal no further contact damage to the player; the 60th
subsequent tick (with a hostile then in contact range) deals contact
damage again. -/
theorem C5_contact_damage_grace_period (steer : ℕ → Vec2 → Vec2 → ℚ × ℚ)
    (rnd : ℕ → ℕ → ℚ) (s : ℕ → GameState)
    (hstep : ∀ k, s (k + 1) = update inp0 (steer k) (rnd k) (s k))
    (h0 : (s 0).status = GameStatus.PLAYING)
    (hh : 0 < (s 0).player.health)
    (hcd : (s 0).player.damageCooldown = DAMAGE_COOLDOWN)
    (hcontact : ∃ e ∈ (s 59).enemies,
      distSq (s 59).player.pos e.pos < (TILE_SIZE * (7 / 10)) ^ 2) :
    (∀ k, k ≤ 59 → (s k).player.health = (s 0).player.health) ∧
    (s 60).player.health = (s 0).player.health - ENEMY_DAMAGE := by
  have hDC : DAMAGE_COOLDOWN = 60 := rfl
  have inv : ∀ k, k ≤ 59 → (s k).status = GameStatus.PLAYING ∧
      (s k).player.health = (s 0).player.health ∧
      (s k).player.damageCooldown = DAMAGE_COOLDOWN - (k : ℤ) := by
    intro k
    induction k with
    | zero => intro _; exact ⟨h0, rfl, by rw [hcd]; norm_num⟩
    | succ n ih =>
      intro hn
      obtain ⟨hst, hhe, hcdn⟩ := ih (by omega)
      have hgt : 1 < (s n).player.damageCooldown := by
        rw [hcdn]
        omega
      have ht := tick_no_damage inp0 (steer n) (rnd n) (s n) hst hgt
      rw [hstep n]
      refine ⟨ht.2.2 (by rw [hhe]; exact hh), by rw [ht.1, hhe], ?_⟩
      rw [ht.2.1, hcdn]
      push_cast
      ring
  refine ⟨fun k hk => (inv k hk).2.1, ?_⟩
  obtain ⟨hst, hhe, hcd59⟩ := inv 59 (by omega)
  have hcd1 : (s 59).player.damageCooldown = 1 := by
    rw [hcd59]
    omega
  have ht := tick_damage (steer 59) (rnd 59) (s 59) hst hcd1 hcontact
  rw [hstep 59, ht.1, hhe]

/-- Player of the C5 scenario: 166 health, damage cooldown `c`, standing
mid-air at pixel (800, 160) with a hostile on the same spot. -/
def playerC5 (c : ℤ) : Entity :=
  ⟨"player", ⟨800, 160⟩, ⟨800, 160⟩, .PLAYER, 166, 200, 1, false, 0, c⟩

def enemyC5 : Entity := ⟨"enemy-0", ⟨800, 160⟩, ⟨0, 0⟩, .ZOMBIE, 100, 100, -1, false, 0, 0⟩

def sC5 (c : ℤ) : GameState :=
  ⟨.PLAYING, playerC5 c, [enemyC5], airGrid, 0, 0, 0, ⟨420, -120⟩, none, [], 0⟩

lemma tickFixC5 (c : ℤ) (hc : 1 < c) :
    update inp0 steer0 rnd0 (sC5 c) = sC5 (c - 1) := by
  have hdx : intentDx inp0 = 0 := by norm_num [intentDx, inp0]
  have hdy : intentDy inp0 = 0 := by norm_num [intentDy, inp0]
  have h0c : (0 : ℤ) < c := by omega
  have hdecay : decayCooldowns (playerC5 c) = playerC5 (c - 1) := by
    unfold decayCooldowns
    simp [playerC5, h0c]
  have hplayer : tickPlayer inp0 airGrid (playerC5 c) = playerC5 (c - 1) := by
    unfold tickPlayer
    rw [hdecay, hdx, hdy, moveBody_zero]
    simp [playerC5, playerDir, inp0]
  have hne : c - 1 ≠ 0 := by omega
  have hstep1 : enemyStep airGrid steer0 rnd0 ⟨[], playerC5 (c - 1), 0, [], 0⟩ enemyC5 =
      ⟨[enemyC5], playerC5 (c - 1), 0, [], 0⟩ := by
    unfold enemyStep
    norm_num [playerC5, enemyC5, distSq, steer0, moveBody_zero, TILE_SIZE, hne]
  have hAcc : tickAcc inp0 steer0 rnd0 (sC5 c) = ⟨[enemyC5], playerC5 (c - 1), 0, [], 0⟩ := by
    unfold tickAcc
    show List.foldl (enemyStep airGrid steer0 rnd0)
      ⟨[], tickPlayer inp0 airGrid (playerC5 c),
        (if (0 : ℚ) < 0 then 0 * (9 / 10) else 0), stepParticles [], 0⟩ [enemyC5] = _
    rw [hplayer]
    norm_num [stepParticles, List.foldl]
    exact hstep1
  have hplayer2 : tickPlayer inp0 (sC5 c).grid (sC5 c).player = playerC5 (c - 1) :=
    hplayer
  rw [update_eq_playing inp0 steer0 rnd0 (sC5 c) rfl, hAcc, hplayer2]
  norm_num [sC5, playerC5, VIEWPORT_WIDTH, VIEWPORT_HEIGHT, TILE_SIZE]

lemma iterC5 : ∀ k : ℕ, k ≤ 59 →
    (update inp0 steer0 rnd0)^[k] (sC5 60) = sC5 (60 - (k : ℤ)) := by
  intro k
  induction k with
  | zero => intro _; norm_num
  | succ n ih =>
    intro hn
    rw [Function.iterate_succ_apply', ih (by omega), tickFixC5 (60 - (n : ℤ)) (by omega)]
    congr 1
    push_cast
    ring

/-- The concrete C5 trace: iterate the tick from `sC5 60`. -/
def traceC5 : ℕ → GameState := fun k => (update inp0 steer0 rnd0)^[k] (sC5 60)

/-- Witness for C5: the concrete trace from `sC5 60` takes the damage on
the 60th tick. -/
theorem C5_witness :
    (traceC5 60).player.health = (traceC5 0).player.health - ENEMY_DAMAGE :=
  (C5_contact_damage_grace_period (fun _ => steer0) (fun _ => rnd0) traceC5
    (fun k => Function.iterate_succ_apply' (update inp0 steer0 rnd0) k (sC5 60))
    rfl (by norm_num [traceC5, sC5, playerC5]) rfl
    (by
      rw [show traceC5 59 = sC5 1 from by
        unfold traceC5
        rw [iterC5 59 (by omega)]
        norm_num]
      exact ⟨enemyC5, by simp [sC5],
        by norm_num [sC5, playerC5, enemyC5, distSq, TILE_SIZE]⟩)).2

/-! ## World generation lemmas (C7, C1) -/

lemma foldl_grid_pointwise {α : Type} (f : Grid → α → Grid) (P : ℤ → ℤ → Prop)
    (hf : ∀ (g : Grid) (a : α) (y x : ℤ),
      f g a y x = g y x ∨ (P y x ∧ f g a y x = airTile)) :
    ∀ (l : List α) (g : Grid) (y x : ℤ),
      (l.foldl f g) y x = g y x ∨ (P y x ∧ (l.foldl f g) y x = airTile) := by
  intro l
  induction l with
  | nil => intro g y x; exact Or.inl rfl
  | cons a t ih =>
    intro g y x
    rw [List.foldl_cons]
    rcases ih (f g a) y x with h | ⟨hp, h⟩
    · rcases hf g a y x with h2 | ⟨hp2, h2⟩
      · exact Or.inl (h.trans h2)
      · exact Or.inr ⟨hp2, h.trans h2⟩
    · exact Or.inr ⟨hp, h⟩

lemma setTile_eq (g : Grid) (ty tx : ℤ) (t : Tile) (y x : ℤ) :
    setTile g ty tx t y x = if y = ty ∧ x = tx then t else g y x := rfl

lemma carveCell_pointwise (cx cy radius : ℤ) (g : Grid) (d : ℤ × ℤ) (y x : ℤ) :
    carveCell cx cy radius g d y x = g y x ∨
    ((10 ≤ y ∧ (x - cx) ^ 2 + (y - cy) ^ 2 ≤ radius ^ 2) ∧
      carveCell cx cy radius g d y x = airTile) := by
  unfold carveCell
  split_ifs with h1
  · rw [setTile_eq]
    split_ifs with h2
    · right
      obtain ⟨hb1, hb2, hb3, hb4, hb5⟩ := h1
      obtain ⟨hy, hx⟩ := h2
      refine ⟨⟨by omega, ?_⟩, rfl⟩
      have e1 : x - cx = d.1 := by omega
      have e2 : y - cy = d.2 := by omega
      rw [e1, e2]
      exact hb5
    · exact Or.inl rfl
  · exact Or.inl rfl

lemma carveDisc_pointwise (g : Grid) (cx cy radius y x : ℤ) :
    carveDisc g cx cy radius y x = g y x ∨
    ((10 ≤ y ∧ (x - cx) ^ 2 + (y - cy) ^ 2 ≤ radius ^ 2) ∧
      carveDisc g cx cy radius y x = airTile) := by
  unfold carveDisc
  exact foldl_grid_pointwise
    (fun g1 dy => (rangeClosed (-radius) radius).foldl
      (fun g2 dx => carveCell cx cy radius g2 (dx, dy)) g1)
    (fun y x => 10 ≤ y ∧ (x - cx) ^ 2 + (y - cy) ^ 2 ≤ radius ^ 2)
    (fun g1 dy y1 x1 => foldl_grid_pointwise
      (fun g2 dx => carveCell cx cy radius g2 (dx, dy))
      (fun y x => 10 ≤ y ∧ (x - cx) ^ 2 + (y - cy) ^ 2 ≤ radius ^ 2)
      (fun g2 dx y2 x2 => carveCell_pointwise cx cy radius g2 (dx, dy) y2 x2)
      (rangeClosed (-radius) radius) g1 y1 x1)
    (rangeClosed (-radius) radius) g y x

lemma carveDisc_vals (g : Grid) (cx cy radius y x : ℤ) :
    carveDisc g cx cy radius y x = g y x ∨ carveDisc g cx cy radius y x = airTile := by
  rcases carveDisc_pointwise g cx cy radius y x with h | ⟨-, h⟩
  · exact Or.inl h
  · exact Or.inr h

lemma carveDisc_low (g : Grid) (cx cy radius y x : ℤ) (hy : y < 10) :
    carveDisc g cx cy radius y x = g y x := by
  rcases carveDisc_pointwise g cx cy radius y x with h | ⟨⟨h10, -⟩, -⟩
  · exact h
  · omega

lemma carveSteps_succ (rnd : ℕ → ℚ) (j : ℕ) (g : Grid) (cx cy : ℤ) (k : ℕ) :
    carveSteps rnd (j + 1) g cx cy k =
      (if cx + ⌊rnd (k + 1) * 5⌋ - 2 < 0 ∨ GRID_WIDTH ≤ cx + ⌊rnd (k + 1) * 5⌋ - 2 ∨
          cy + ⌊rnd (k + 2) * 3⌋ - 1 < 10 ∨
          GRID_HEIGHT ≤ cy + ⌊rnd (k + 2) * 3⌋ - 1 then
        (carveDisc g cx cy (walkRadius (rnd k)), k + 3)
      else carveSteps rnd j (carveDisc g cx cy (walkRadius (rnd k)))
        (cx + ⌊rnd (k + 1) * 5⌋ - 2) (cy + ⌊rnd (k + 2) * 3⌋ - 1) (k + 3)) := rfl

lemma carveSteps_vals (rnd : ℕ → ℚ) :
    ∀ (n : ℕ) (g : Grid) (cx cy : ℤ) (k : ℕ) (y x : ℤ),
      ((carveSteps rnd n g cx cy k).1) y x = g y x ∨
      ((carveSteps rnd n g cx cy k).1) y x = airTile := by
  intro n
  induction n with
  | zero => intro g cx cy k y x; exact Or.inl rfl
  | succ j ih =>
    intro g cx cy k y x
    rw [carveSteps_succ]
    split_ifs with hb
    · exact carveDisc_vals g cx cy (walkRadius (rnd k)) y x
    · rcases ih (carveDisc g cx cy (walkRadius (rnd k)))
          (cx + ⌊rnd (k + 1) * 5⌋ - 2) (cy + ⌊rnd (k + 2) * 3⌋ - 1) (k + 3) y x with
        h | h
      · rcases carveDisc_vals g cx cy (walkRadius (rnd k)) y x with h2 | h2
        · exact Or.inl (h.trans h2)
        · exact Or.inr (h.trans h2)
      · exact Or.inr h

lemma carveSteps_low (rnd : ℕ → ℚ) :
    ∀ (n : ℕ) (g : Grid) (cx cy : ℤ) (k : ℕ) (y x : ℤ), y < 10 →
      ((carveSteps rnd n g cx cy k).1) y x = g y x := by
  intro n
  induction n with
  | zero => intro g cx cy k y x _; rfl
  | succ j ih =>
    intro g cx cy k y x hy
    rw [carveSteps_succ]
    split_ifs with hb
    · exact carveDisc_low g cx cy (walkRadius (rnd k)) y x hy
    · rw [ih (carveDisc g cx cy (walkRadius (rnd k)))
          (cx + ⌊rnd (k + 1) * 5⌋ - 2) (cy + ⌊rnd (k + 2) * 3⌋ - 1) (k + 3) y x hy,
        carveDisc_low g cx cy (walkRadius (rnd k)) y x hy]

lemma carveWalk_vals (rnd : ℕ → ℚ) (gk : Grid × ℕ) (y x : ℤ) :
    ((carveWalk rnd gk).1) y x = gk.1 y x ∨ ((carveWalk rnd gk).1) y x = airTile := by
  unfold carveWalk
  exact carveSteps_vals rnd _ gk.1 _ _ _ y x

lemma carveWalk_low (rnd : ℕ → ℚ) (gk : Grid × ℕ) (y x : ℤ) (hy : y < 10) :
    ((carveWalk rnd gk).1) y x = gk.1 y x := by
  unfold carveWalk
  exact carveSteps_low rnd _ gk.1 _ _ _ y x hy

lemma carveAll_vals (rnd : ℕ → ℚ) (g : Grid) (y x : ℤ) :
    ((carveAll rnd g).1) y x = g y x ∨ ((carveAll rnd g).1) y x = airTile := by
  unfold carveAll
  have key : ∀ (l : List ℕ) (gk : Grid × ℕ),
      ((l.foldl (fun gk _ => carveWalk rnd gk) gk).1) y x = gk.1 y x ∨
      ((l.foldl (fun gk _ => carveWalk rnd gk) gk).1) y x = airTile := by
    intro l
    induction l with
    | nil => intro gk; exact Or.inl rfl
    | cons a t ih =>
      intro gk
      rw [List.foldl_cons]
      rcases ih (carveWalk rnd gk) with h | h
      · rcases carveWalk_vals rnd gk y x with h2 | h2
        · exact Or.inl (h.trans h2)
        · exact Or.inr (h.trans h2)
      · exact Or.inr h
  exact key _ _

lemma carveAll_low (rnd : ℕ → ℚ) (g : Grid) (y x : ℤ) (hy : y < 10) :
    ((carveAll rnd g).1) y x = g y x := by
  unfold carveAll
  have key : ∀ (l : List ℕ) (gk : Grid × ℕ),
      ((l.foldl (fun gk _ => carveWalk rnd gk) gk).1) y x = gk.1 y x := by
    intro l
    induction l with
    | nil => intro gk; rfl
    | cons a t ih =>
      intro gk
      rw [List.foldl_cons, ih (carveWalk rnd gk), carveWalk_low rnd gk y x hy]
  exact key _ _

lemma placeResource_pointwise (rnd : ℕ → ℚ) (t : TileType) (minY : ℤ) :
    ∀ (fuel cnt k : ℕ) (g : Grid) (y x : ℤ),
      ((placeResource rnd t minY fuel cnt k g).1) y x = g y x ∨
      ((placeResource rnd t minY fuel cnt k g).1) y x = mkTile t := by
  intro fuel
  induction fuel with
  | zero => intro cnt k g y x; exact Or.inl rfl
  | succ n ih =>
    intro cnt k g y x
    match cnt with
    | 0 => exact Or.inl rfl
    | cnt' + 1 =>
      rw [show placeResource rnd t minY (n + 1) (cnt' + 1) k g =
        (if (g (⌊rnd (k + 1) * ((GRID_HEIGHT : ℚ) - (minY : ℚ))⌋ + minY)
              ⌊rnd k * 40⌋).type = TileType.STONE ∨
            (g (⌊rnd (k + 1) * ((GRID_HEIGHT : ℚ) - (minY : ℚ))⌋ + minY)
              ⌊rnd k * 40⌋).type = TileType.DIRT then
          placeResource rnd t minY n cnt' (k + 2)
            (setTile g (⌊rnd (k + 1) * ((GRID_HEIGHT : ℚ) - (minY : ℚ))⌋ + minY)
              ⌊rnd k * 40⌋ (mkTile t))
        else placeResource rnd t minY n (cnt' + 1) (k + 2) g) from rfl]
      split_ifs with hc
      · rcases ih cnt' (k + 2)
            (setTile g (⌊rnd (k + 1) * ((GRID_HEIGHT : ℚ) - (minY : ℚ))⌋ + minY)
              ⌊rnd k * 40⌋ (mkTile t)) y x with h | h
        · rw [setTile_eq] at h
          by_cases hyx : y = ⌊rnd (k + 1) * ((GRID_HEIGHT : ℚ) - (minY : ℚ))⌋ + minY ∧
              x = ⌊rnd k * 40⌋
          · rw [if_pos hyx] at h
            exact Or.inr h
          · rw [if_neg hyx] at h
            exact Or.inl h
        · exact Or.inr h
      · exact ih (cnt' + 1) (k + 2) g y x

/-- Full invariant of a tile as the spec states it. -/
def TileInv (t : Tile) : Prop :=
  0 ≤ t.durability ∧ t.durability ≤ t.maxDurability ∧
    (t.type = TileType.AIR ↔ t.durability = 0)

/-- The part of the tile invariant that mining actually preserves. -/
def TileWeakInv (t : Tile) : Prop :=
  t.durability ≤ t.maxDurability ∧ (t.type ≠ TileType.AIR → 0 < t.durability)

lemma tileInv_mkTile (t : TileType) : TileInv (mkTile t) := by
  cases t <;> norm_num [TileInv, mkTile, TILE_DURABILITY] <;> decide

lemma tileInv_airTile : TileInv airTile := by
  norm_num [TileInv, airTile]

lemma initGrid_pointwise (rnd : ℕ → ℚ) (fuel : ℕ) (y x : ℤ) :
    initGrid rnd fuel y x = layeredFill y x ∨ initGrid rnd fuel y x = airTile ∨
    initGrid rnd fuel y x = mkTile TileType.SHARD ∨
    initGrid rnd fuel y x = mkTile TileType.GOLD ∨
    initGrid rnd fuel y x = mkTile TileType.DIAMOND := by
  unfold initGrid
  rcases placeResource_pointwise rnd .DIAMOND 40 fuel DIAMOND_COUNT _ _ y x with h3 | h3
  · rw [h3]
    rcases placeResource_pointwise rnd .GOLD 20 fuel GOLD_COUNT _ _ y x with h2 | h2
    · rw [h2]
      rcases placeResource_pointwise rnd .SHARD 12 fuel 15 _ _ y x with h1 | h1
      · rw [h1]
        rcases carveAll_vals rnd layeredFill y x with h0 | h0
        · exact Or.inl h0
        · exact Or.inr (Or.inl h0)
      · exact Or.inr (Or.inr (Or.inl h1))
    · exact Or.inr (Or.inr (Or.inr (Or.inl h2)))
  · exact Or.inr (Or.inr (Or.inr (Or.inr h3)))

lemma initGrid_inv (rnd : ℕ → ℚ) (fuel : ℕ) (y x : ℤ) :
    TileInv (initGrid rnd fuel y x) := by
  rcases initGrid_pointwise rnd fuel y x with h | h | h | h | h <;> rw [h]
  · exact tileInv_mkTile (layeredType y)
  · exact tileInv_airTile
  · exact tileInv_mkTile _
  · exact tileInv_mkTile _
  · exact tileInv_mkTile _

lemma mineTileAt_grid (rnd : ℕ → ℚ) (tx ty : ℤ) (s : GameState) :
    ((s.grid ty tx).type = TileType.AIR ∧ (mineTileAt rnd tx ty s).grid = s.grid) ∨
    ((s.grid ty tx).type ≠ TileType.AIR ∧
      (mineTileAt rnd tx ty s).grid = setTile s.grid ty tx
        ⟨(if (s.grid ty tx).durability - 8 ≤ 0 then TileType.AIR
          else (s.grid ty tx).type),
          (s.grid ty tx).durability - 8, (s.grid ty tx).maxDurability⟩) := by
  unfold mineTileAt
  dsimp only
  by_cases h1 : (s.grid ty tx).type ≠ TileType.AIR
  · rw [if_pos h1]
    by_cases h2 : (s.grid ty tx).durability - 8 ≤ 0
    · rw [if_pos h2]
      exact Or.inr ⟨h1, by rw [if_pos h2]⟩
    · rw [if_neg h2]
      exact Or.inr ⟨h1, by rw [if_neg h2]⟩
  · rw [if_neg h1]
    exact Or.inl ⟨not_not.mp h1, rfl⟩

lemma mineTileAt_weakInv (rnd : ℕ → ℚ) (tx ty : ℤ) (s : GameState)
    (hall : ∀ y x, TileWeakInv (s.grid y x)) :
    ∀ y x, TileWeakInv ((mineTileAt rnd tx ty s).grid y x) := by
  intro y x
  rcases mineTileAt_grid rnd tx ty s with ⟨-, h⟩ | ⟨h1, h⟩
  · rw [h]
    exact hall y x
  · rw [h, setTile_eq]
    by_cases hyx : y = ty ∧ x = tx
    · rw [if_pos hyx]
      have hin := (hall ty tx).1
      by_cases hd : (s.grid ty tx).durability - 8 ≤ 0
      · rw [if_pos hd]
        exact ⟨by dsimp only; omega, fun hne => absurd rfl hne⟩
      · rw [if_neg hd]
        exact ⟨by dsimp only; omega, fun _ => by dsimp only; omega⟩
    · rw [if_neg hyx]
      exact hall y x

lemma minePhase_weakInv (rnd : ℕ → ℚ) (m : Vec2) (s : GameState)
    (hall : ∀ y x, TileWeakInv (s.grid y x)) :
    ∀ y x, TileWeakInv ((minePhase rnd m s).grid y x) := by
  intro y x
  unfold minePhase
  dsimp only
  split_ifs with h1 h2
  · exact hall y x
  · exact mineTileAt_weakInv rnd _ _ s hall y x
  · exact hall y x

lemma mineTileAt_break (rnd : ℕ → ℚ) (tx ty : ℤ) (s : GameState)
    (hna : (s.grid ty tx).type ≠ TileType.AIR)
    (hd : (s.grid ty tx).durability - 8 ≤ 0) :
    (mineTileAt rnd tx ty s).grid ty tx =
      ⟨TileType.AIR, (s.grid ty tx).durability - 8, (s.grid ty tx).maxDurability⟩ := by
  rcases mineTileAt_grid rnd tx ty s with ⟨h0, -⟩ | ⟨-, h⟩
  · exact absurd h0 hna
  · rw [h, setTile_eq, if_pos ⟨rfl, rfl⟩, if_pos hd]

/-- C1 (amended): the generated world satisfies the full tile invariant
(`0 ≤ durability ≤ maxDurability` and `type = AIR ↔ durability = 0`);
every mining press preserves `durability ≤ maxDurability` and keeps the
durability of every non-AIR tile positive; but a press that breaks a tile
sets only its `type` to AIR and leaves `durability = old − 8 ≤ 0`
(typically negative) and the old `maxDurability` in place, so broken AIR
tiles do not satisfy `durability = maxDurability = 0`. -/
theorem C1_tile_invariant_generation_and_mining :
    (∀ (rnd : ℕ → ℚ) (fuel : ℕ) (y x : ℤ), TileInv (initGrid rnd fuel y x)) ∧
    (∀ (rnd : ℕ → ℚ) (m : Vec2) (s : GameState),
      (∀ y x, TileWeakInv (s.grid y x)) →
      ∀ y x, TileWeakInv ((minePhase rnd m s).grid y x)) ∧
    (∀ (rnd : ℕ → ℚ) (tx ty : ℤ) (s : GameState),
      (s.grid ty tx).type ≠ TileType.AIR →
      (s.grid ty tx).durability - 8 ≤ 0 →
      (mineTileAt rnd tx ty s).grid ty tx =
        ⟨TileType.AIR, (s.grid ty tx).durability - 8,
          (s.grid ty tx).maxDurability⟩) :=
  ⟨initGrid_inv, minePhase_weakInv, mineTileAt_break⟩

/-- A single DIRT tile (durability 5 of 5) in an otherwise empty world. -/
def gDirt : Grid :=
  fun y x => if y = 12 ∧ x = 20 then ⟨TileType.DIRT, 5, 5⟩ else airTile

def sC1 : GameState :=
  ⟨.PLAYING, player0, [], gDirt, 0, 0, 0, ⟨0, 0⟩, none, [], 0⟩

/-- C1 counterexample: mining a DIRT tile (5/5) once yields the tile
`{AIR, durability := −3, maxDurability := 5}` — the broken AIR tile does
not have `durability = maxDurability = 0` and its durability is negative,
refuting the claimed invariant as stated. -/
theorem C1_counterexample :
    TileInv (sC1.grid 12 20) ∧
    (minePhase rnd0 ⟨820, 500⟩ sC1).grid 12 20 = ⟨TileType.AIR, -3, 5⟩ ∧
    ¬ TileInv ((minePhase rnd0 ⟨820, 500⟩ sC1).grid 12 20) := by
  have hg : (minePhase rnd0 ⟨820, 500⟩ sC1).grid 12 20 = ⟨TileType.AIR, -3, 5⟩ := by
    norm_num [minePhase, mineTileAt, sC1, gDirt, player0, distSq, TILE_SIZE,
      GRID_WIDTH, GRID_HEIGHT, setTile, spawnMiningParticles, airTile, COLORS, rnd0,
      show TileType.DIRT ≠ TileType.AIR from by decide,
      show TileType.DIRT ≠ TileType.SHARD from by decide,
      show TileType.DIRT ≠ TileType.GOLD from by decide,
      show TileType.DIRT ≠ TileType.DIAMOND from by decide]
  refine ⟨?_, hg, ?_⟩
  · norm_num [TileInv, sC1, gDirt]
    decide
  · rw [hg]
    norm_num [TileInv]

/-- Witness for C1 at the concrete DIRT tile. -/
theorem C1_witness :
    (sC1.grid 12 20).type ≠ TileType.AIR ∧
    (mineTileAt rnd0 20 12 sC1).grid 12 20 =
      ⟨TileType.AIR, (sC1.grid 12 20).durability - 8,
        (sC1.grid 12 20).maxDurability⟩ :=
  ⟨by decide, C1_tile_invariant_generation_and_mining.2.2 rnd0 20 12 sC1
    (by decide) (by decide)⟩

/-- C7: the layered fill puts AIR on rows 0–4, GRASS on row 5, DIRT on
rows 6–9 and STONE on every row ≥ 10; every cave walk's drawn length lies
in [20, 60] and its drawn radius is 2 or 3 (for random draws in [0, 1));
carving never touches any row < 10; and a carved disc only ever turns
cells within Euclidean distance `radius` of its center (and at row ≥ 10)
into AIR. -/
theorem C7_worldgen_layers_and_caves :
    (∀ (x y : ℤ),
      (0 ≤ y ∧ y ≤ 4 → layeredFill y x = mkTile TileType.AIR) ∧
      (y = 5 → layeredFill y x = mkTile TileType.GRASS) ∧
      (6 ≤ y ∧ y ≤ 9 → layeredFill y x = mkTile TileType.DIRT) ∧
      (10 ≤ y → layeredFill y x = mkTile TileType.STONE)) ∧
    (∀ r : ℚ, 0 ≤ r → r < 1 →
      (20 ≤ walkLength r ∧ walkLength r ≤ 60) ∧
      (walkRadius r = 2 ∨ walkRadius r = 3)) ∧
    (∀ (rnd : ℕ → ℚ) (g : Grid) (y x : ℤ), y < 10 →
      ((carveAll rnd g).1) y x = g y x) ∧
    (∀ (g : Grid) (cx cy radius y x : ℤ),
      carveDisc g cx cy radius y x = g y x ∨
      ((10 ≤ y ∧ (x - cx) ^ 2 + (y - cy) ^ 2 ≤ radius ^ 2) ∧
        carveDisc g cx cy radius y x = airTile)) := by
  refine ⟨?_, ?_, fun rnd g y x h => carveAll_low rnd g y x h, carveDisc_pointwise⟩
  · intro x y
    refine ⟨?_, ?_, ?_, ?_⟩ <;> intro h <;> unfold layeredFill layeredType
    · rw [if_neg (by omega), if_neg (by omega), if_neg (by omega)]
    · rw [if_pos (by omega)]
    · rw [if_neg (by omega), if_pos (by constructor <;> omega)]
    · rw [if_neg (by omega), if_neg (by omega), if_pos (by omega)]
  · intro r h0 h1
    have ha : (0 : ℤ) ≤ ⌊r * 40⌋ := Int.floor_nonneg.mpr (by positivity)
    have hb : ⌊r * 40⌋ < 40 := by
      rw [Int.floor_lt]
      push_cast
      nlinarith
    have hc : (0 : ℤ) ≤ ⌊r * 2⌋ := Int.floor_nonneg.mpr (by positivity)
    have hd : ⌊r * 2⌋ < 2 := by
      rw [Int.floor_lt]
      push_cast
      nlinarith
    refine ⟨⟨?_, ?_⟩, ?_⟩ <;> simp only [walkLength, walkRadius] <;> omega

/-- Witness for C7 at a concrete draw and a concrete overworld row. -/
theorem C7_witness :
    ((20 ≤ walkLength (1 / 2) ∧ walkLength (1 / 2) ≤ 60) ∧
      (walkRadius (1 / 2) = 2 ∨ walkRadius (1 / 2) = 3)) ∧
    ((carveAll rnd0 layeredFill).1) 5 0 = layeredFill 5 0 :=
  ⟨C7_worldgen_layers_and_caves.2.1 (1 / 2) (by norm_num) (by norm_num),
    C7_worldgen_layers_and_caves.2.2.1 rnd0 layeredFill 5 0 (by norm_num)⟩

end MinorDai
